import Mathlib

/-!
# Verification of the BRD/PRD generator's LLM orchestration layer

This file gives a shallow embedding, in Lean 4, of the parts of the
`brd-prd-generator` repository that the specification's claims are about:

* `src/llm/response_fixer.py` — the response normalizer (`fix_brd_response`,
  `fix_prd_response`), modelled over a JSON value type with Python `dict`
  semantics (order-preserving association lists, first-key lookup);
* `src/llm/factory.py` — provider selection by complexity and cost;
* `src/llm/client.py` — the retry/backoff wrapper and cost arithmetic;
* `src/llm/openai_strategy.py` — `_parse_brd_response`, the decode of a parsed
  provider payload into the `BRDDocument` pydantic model of
  `src/core/models.py`;
* `src/core/multi_llm_generator.py` — combination of per-phase cost metadata;
* `src/core/generator.py` — the `generate` orchestration flow around
  validation and persistence;
* `src/core/models.py` — `GenerationRequest` field constraints.

Modelling conventions:
* Python `float` dollar/latency arithmetic is modelled with exact rationals
  (`ℚ`); every comparison any theorem below depends on is far from the
  float-rounding scale, and no claim concerns rounding behaviour itself.
* `random.randint(lo, hi)` is modelled by an explicit function parameter
  `rint : Nat → Nat → Nat` applied to the same `(lo, hi)` arguments as in the
  source; theorems that depend on the draw carry the hypothesis that `rint`
  returns a value in the requested closed interval, which is `randint`'s
  contract.
* Python exceptions are modelled with `Except`; distinct exception classes
  (and, for `LLMInvalidResponseError`, the distinct underlying causes that
  appear in its message string) are distinct constructors.
-/

namespace BrdPrd

instance {ε α : Type _} [DecidableEq ε] [DecidableEq α] : DecidableEq (Except ε α) :=
  fun a b =>
    match a, b with
    | .ok x, .ok y =>
      if h : x = y then isTrue (by rw [h]) else isFalse (fun hc => h (Except.ok.inj hc))
    | .error x, .error y =>
      if h : x = y then isTrue (by rw [h]) else isFalse (fun hc => h (Except.error.inj hc))
    | .ok _, .error _ => isFalse (fun hc => Except.noConfusion hc)
    | .error _, .ok _ => isFalse (fun hc => Except.noConfusion hc)

/-- JSON-like values as produced by `json.loads` in the Python source.
Objects are order-preserving key/value lists; well-formed values coming from
`json.loads` have no duplicate keys. -/
inductive JValue where
  | null
  | bool (b : Bool)
  | num (q : ℚ)
  | str (s : String)
  | arr (elems : List JValue)
  | obj (kvs : List (String × JValue))
deriving Repr

/-- A Python `dict` at the top level of a provider response. -/
abbrev JObj := List (String × JValue)

/-- `d[k]` / `d.get(k)`: first entry with the given key. -/
def getKV : JObj → String → Option JValue
  | [], _ => none
  | kv :: tl, k => if kv.1 == k then some kv.2 else getKV tl k

/-- `k in d`. -/
def hasKV (kvs : JObj) (k : String) : Bool :=
  (getKV kvs k).isSome

/-- Replace the value at an existing key in place (Python dicts keep the
key's position). -/
def replaceKV : JObj → String → JValue → JObj
  | [], _, _ => []
  | kv :: tl, k, v => (if kv.1 == k then (k, v) else kv) :: replaceKV tl k v

/-- `d[k] = v`: replace in place when the key exists, otherwise append the
new binding at the end. -/
def setKV (kvs : JObj) (k : String) (v : JValue) : JObj :=
  if hasKV kvs k then replaceKV kvs k v else kvs ++ [(k, v)]

/-- `d.pop(k)`: remove the binding. -/
def popKV : JObj → String → JObj
  | [], _ => []
  | kv :: tl, k => if kv.1 == k then popKV tl k else kv :: popKV tl k

/-- Python truthiness of a JSON value (`bool(v)`). -/
def JValue.truthy : JValue → Bool
  | .null => false
  | .bool b => b
  | .num q => q != 0
  | .str s => s != ""
  | .arr xs => !xs.isEmpty
  | .obj kvs => !kvs.isEmpty

/-! ## Decimal strings and identifier canonicalization

`re.sub(r'[^0-9]', '', s)` keeps exactly the ASCII digit characters of `s`;
`str.zfill(w)` left-pads with `'0'` (no sign handling is needed: the inputs
are digit-only); `f"{n}"` / `f"{n:03d}"` render a nonnegative integer in
decimal. -/

/-- `re.sub(r'[^0-9]', '', s)` as a character list. -/
def extractDigits (s : String) : List Char :=
  s.toList.filter Char.isDigit

/-- `str.zfill` on a digit string. -/
def zfillChars (w : Nat) (ds : List Char) : List Char :=
  List.replicate (w - ds.length) '0' ++ ds

/-- Decimal rendering of a natural number, big-endian, with explicit fuel. -/
def decCharsAux : Nat → Nat → List Char → List Char
  | 0, _, acc => acc
  | fuel + 1, n, acc =>
    if n < 10 then Nat.digitChar n :: acc
    else decCharsAux fuel (n / 10) (Nat.digitChar (n % 10) :: acc)

/-- Decimal rendering of a natural number (`str(n)` for `n ≥ 0`). -/
def decChars (n : Nat) : List Char := decCharsAux (n + 1) n []

/-- The canonical identifier shape `PRE-` followed by exactly `w` ASCII
digits, i.e. the regex `^PRE-[0-9]{w}$`. -/
def matchesIdPattern (pre : String) (w : Nat) (s : String) : Bool :=
  let l := s.toList
  let p := pre.toList ++ ['-']
  (l.take p.length == p) && ((l.drop p.length).length == w)
    && (l.drop p.length).all Char.isDigit

theorem digitChar_isDigit {m : Nat} (h : m < 10) : (Nat.digitChar m).isDigit = true := by
  interval_cases m <;> decide

theorem decCharsAux_digits : ∀ (fuel n : Nat) (acc : List Char),
    (∀ c ∈ acc, c.isDigit = true) → ∀ c ∈ decCharsAux fuel n acc, c.isDigit = true := by
  intro fuel
  induction fuel with
  | zero => intro n acc hacc c hc; exact hacc c hc
  | succ fuel ih =>
    intro n acc hacc c hc
    simp only [decCharsAux] at hc
    split at hc
    · rcases List.mem_cons.mp hc with h | h
      · subst h; exact digitChar_isDigit (by omega)
      · exact hacc c h
    · refine ih (n / 10) _ ?_ c hc
      intro c' hc'
      rcases List.mem_cons.mp hc' with h | h
      · subst h; exact digitChar_isDigit (Nat.mod_lt _ (by omega))
      · exact hacc c' h

theorem decCharsAux_length : ∀ (k fuel n : Nat) (acc : List Char),
    10 ^ k ≤ n → n < 10 ^ (k + 1) → k < fuel →
    (decCharsAux fuel n acc).length = (k + 1) + acc.length := by
  intro k
  induction k with
  | zero =>
    intro fuel n acc h1 h2 hf
    obtain ⟨f, rfl⟩ := Nat.exists_eq_add_of_lt hf
    simp only [decCharsAux]
    rw [if_pos (by simpa using h2)]
    simp [Nat.add_comm]
  | succ k ih =>
    intro fuel n acc h1 h2 hf
    obtain ⟨f, rfl⟩ := Nat.exists_eq_add_of_lt hf
    have hten : (10:ℕ) ≤ 10 ^ (k + 1) := by
      have := Nat.pow_le_pow_right (show 1 ≤ 10 by omega) (show 1 ≤ k + 1 by omega)
      simpa using this
    have hlow : 10 ^ k ≤ n / 10 := by
      rw [Nat.le_div_iff_mul_le (by omega)]
      have : 10 ^ k * 10 = 10 ^ (k + 1) := by ring
      omega
    have hhigh : n / 10 < 10 ^ (k + 1) := by
      rw [Nat.div_lt_iff_lt_mul (by omega)]
      have : 10 ^ (k + 1) * 10 = 10 ^ (k + 1 + 1) := by ring
      omega
    simp only [decCharsAux]
    rw [if_neg (by omega)]
    rw [ih (k + 1 + f) (n / 10) _ hlow hhigh (by omega)]
    simp
    omega

theorem decChars_digits (n : Nat) : ∀ c ∈ decChars n, c.isDigit = true :=
  decCharsAux_digits (n + 1) n [] (by simp)

theorem decChars_length_six {n : Nat} (h1 : 100000 ≤ n) (h2 : n ≤ 999999) :
    (decChars n).length = 6 := by
  have := decCharsAux_length 5 (n + 1) n []
    (by norm_num; omega) (by norm_num; omega)
    (by have : (5:ℕ) < 10 ^ 5 := by norm_num
        omega)
  simpa using this

theorem decChars_length_three {n : Nat} (h1 : 100 ≤ n) (h2 : n ≤ 999) :
    (decChars n).length = 3 := by
  have := decCharsAux_length 2 (n + 1) n []
    (by norm_num; omega) (by norm_num; omega)
    (by have : (2:ℕ) < 10 ^ 2 := by norm_num
        omega)
  simpa using this

/-! ## `src/llm/response_fixer.py`

`fix_brd_response` / `fix_prd_response` begin with `fixed = response_data.copy()`
— a *shallow* copy: the nested stakeholder/objective/story/requirement dicts
(and the lists holding them) are shared between `response_data` and `fixed`.
Top-level assignments (`fixed[k] = v`) affect only `fixed`; the element dicts
of the nested lists are mutated in place and the mutation is visible through
both dicts.  The embedding therefore models one call as a transition on a
pair `FixState` of (caller's dict, local `fixed` dict).  `json.loads` output
is always a tree (no aliasing between distinct keys), which is the situation
this value-level model captures. -/

/-- Model of `random.randint`: `rint lo hi` is the draw for a call
`random.randint(lo, hi)`.  Theorems that depend on a draw assume it lies in
the requested closed interval (randint's contract). -/
abbrev RandInt := Nat → Nat → Nat

/-- The common identifier-coercion logic appearing at the five fix sites
(`document_id` ×2, `objective_id`, `story_id`, `requirement_id`): extract the
digits; if at least `w`, keep the first `w`; if some but fewer, zero-pad; if
none, use the rendered random draw `rnd`. -/
def fixIdCore (pre : String) (w : Nat) (rnd : List Char) (s : String) : String :=
  let ds := extractDigits s
  if w ≤ ds.length then pre ++ "-" ++ String.mk (ds.take w)
  else if 0 < ds.length then pre ++ "-" ++ String.mk (zfillChars w ds)
  else pre ++ "-" ++ String.mk rnd

/-- `f"{random.randint(100000, 999999)}"`. -/
def randDigits6 (rint : RandInt) : List Char := decChars (rint 100000 999999)

/-- `f"{random.randint(100, 999):03d}"`. -/
def randDigits3 (rint : RandInt) : List Char := zfillChars 3 (decChars (rint 100 999))

/-- State of one fixer call: the caller's `response_data` dict and the local
`fixed` dict (initially a shallow copy of it). -/
structure FixState where
  inp : JObj
  out : JObj

/-- The `document_id` block of either fixer: coerce a string `document_id`
in `fixed`; leaves the caller's dict untouched. -/
def fixDocIdBlock (pre : String) (rint : RandInt) (fixed : JObj) : JObj :=
  match getKV fixed "document_id" with
  | some (.str docId) =>
    setKV fixed "document_id" (.str (fixIdCore pre 6 (randDigits6 rint) docId))
  | _ => fixed

/-- In-place net effect of the stakeholder loop body on one element:
split `interest_influence` into the two level fields, then default both
levels to `"medium"`.  Non-dict elements pass through. -/
def fixStakeholderEntry : JValue → JValue
  | .obj st =>
    let st :=
      if hasKV st "interest_influence" then
        let level := (getKV st "interest_influence").getD (.str "medium")
        let st := popKV st "interest_influence"
        let st := if hasKV st "interest_level" then st
                  else setKV st "interest_level" level
        if hasKV st "influence_level" then st
        else setKV st "influence_level" level
      else st
    let st := if hasKV st "interest_level" then st
              else setKV st "interest_level" (.str "medium")
    let st := if hasKV st "influence_level" then st
              else setKV st "influence_level" (.str "medium")
    .obj st
  | v => v

/-- Objective loop, block 1: coerce a string `objective_id`. -/
def objFixIdStep (rint : RandInt) (o : JObj) : JObj :=
  match getKV o "objective_id" with
  | some (.str objId) =>
    setKV o "objective_id" (.str (fixIdCore "OBJ" 3 (randDigits3 rint) objId))
  | _ => o

/-- Objective loop, block 2: rename a legacy `id` (without coercion). -/
def objLegacyIdStep (o : JObj) : JObj :=
  if hasKV o "id" && !hasKV o "objective_id" then
    setKV (popKV o "id") "objective_id" ((getKV o "id").getD .null)
  else o

/-- Objective loop, block 3: wrap a string `success_criteria` into a list. -/
def objSuccessCriteriaStep (o : JObj) : JObj :=
  match getKV o "success_criteria" with
  | some (.str sc) => setKV o "success_criteria" (.arr [.str sc])
  | _ => o

/-- Objective loop, block 4: rename a legacy `kpis` to `kpi_metrics`. -/
def objKpisStep (o : JObj) : JObj :=
  if hasKV o "kpis" && !hasKV o "kpi_metrics" then
    setKV (popKV o "kpis") "kpi_metrics" ((getKV o "kpis").getD .null)
  else o

/-- In-place net effect of the objective loop body on one element, blocks in
source order.  Non-dict elements pass through. -/
def fixObjectiveEntry (rint : RandInt) : JValue → JValue
  | .obj o => .obj (objKpisStep (objSuccessCriteriaStep (objLegacyIdStep (objFixIdStep rint o))))
  | v => v

/-- One `for … in fixed[key]` loop over a nested list.  The list object is
shared between the caller's dict and `fixed` (shallow copy), so the in-place
element mutations are visible through both. -/
def fixSharedList (key : String) (f : JValue → JValue) (st : FixState) : FixState :=
  match getKV st.out key with
  | some (.arr xs) =>
    let newVal := JValue.arr (xs.map f)
    { inp := setKV st.inp key newVal, out := setKV st.out key newVal }
  | _ => st

/-- `field_mapping` of `fix_brd_response`. -/
def fieldAlts (field : String) : List String :=
  if field == "title" then ["project_name", "name", "document_title"]
  else if field == "problem_statement" then ["problem", "business_problem", "challenge"]
  else if field == "success_metrics" then ["metrics", "kpis", "success_criteria"]
  else []

/-- `field not in fixed or not fixed[field]`. -/
def fieldMissing (fixed : JObj) (field : String) : Bool :=
  !hasKV fixed field || !((getKV fixed field).getD .null).truthy

/-- First hit of the nested-extraction loop over `['document', 'brd',
'brd_document']`. -/
def findNested (fixed : JObj) (field : String) : Option JValue :=
  ((["document", "brd", "brd_document"]).filterMap (fun key =>
    match getKV fixed key with
    | some (.obj nested) => getKV nested field
    | _ => none)).head?

/-- First truthy hit of the alternative-name loop. -/
def findAlt (fixed : JObj) (field : String) : Option JValue :=
  ((fieldAlts field).filterMap (fun alt =>
    match getKV fixed alt with
    | some v => if v.truthy then some v else none
    | none => none)).head?

/-- The `sensible defaults` tail of the required-root-fields loop. -/
def backfillDefaults (field : String) (fixed1 : JObj) : JObj :=
  if field == "title" then
    setKV fixed1 "title" ((getKV fixed1 "project_name").getD (.str "Untitled Project"))
  else if field == "problem_statement" then
    setKV fixed1 "problem_statement"
      (.str "Problem statement to be defined based on business objectives.")
  else if field == "success_metrics" then
    match getKV fixed1 "success_metrics" with
    | some (.arr _) => fixed1
    | _ => setKV fixed1 "success_metrics" (.arr [.str "Success metrics to be defined"])
  else fixed1

/-- One iteration of the required-root-fields loop of `fix_brd_response`. -/
def backfillField (field : String) (fixed : JObj) : JObj :=
  if fieldMissing fixed field then
    let step :=
      match findNested fixed field with
      | some v => (setKV fixed field v, true)
      | none =>
        match findAlt fixed field with
        | some v => (setKV fixed field v, true)
        | none => (fixed, false)
    if !step.2 || fieldMissing step.1 field then backfillDefaults field step.1
    else step.1
  else fixed

/-- The required-root-fields loop of `fix_brd_response`. -/
def backfillRootFields (fixed : JObj) : JObj :=
  (["title", "executive_summary", "business_context", "problem_statement",
    "success_metrics"]).foldl (fun acc field => backfillField field acc) fixed

/-- One call `fix_brd_response(response_data)` as a transition on the
(caller's dict, `fixed`) pair. -/
def fixBrdCall (rint : RandInt) (response_data : JObj) : FixState :=
  let st : FixState := { inp := response_data, out := response_data }
  let st := { st with out := fixDocIdBlock "BRD" rint st.out }
  let st := fixSharedList "stakeholders" fixStakeholderEntry st
  let st := fixSharedList "objectives" (fixObjectiveEntry rint) st
  { st with out := backfillRootFields st.out }

/-- Return value of `fix_brd_response`. -/
def fixBrdResponse (rint : RandInt) (d : JObj) : JObj := (fixBrdCall rint d).out

/-- The caller's `response_data` dict after `fix_brd_response` returns. -/
def fixBrdResponseInputAfter (rint : RandInt) (d : JObj) : JObj := (fixBrdCall rint d).inp

/-- User-story loop, block 1: coerce a string `story_id`. -/
def storyFixIdStep (rint : RandInt) (st : JObj) : JObj :=
  match getKV st "story_id" with
  | some (.str sid) =>
    setKV st "story_id" (.str (fixIdCore "US" 3 (randDigits3 rint) sid))
  | _ => st

/-- User-story loop, block 2: rename a legacy `id` (without coercion). -/
def storyLegacyIdStep (st : JObj) : JObj :=
  if hasKV st "id" && !hasKV st "story_id" then
    setKV (popKV st "id") "story_id" ((getKV st "id").getD .null)
  else st

/-- User-story loop, block 3: rename a legacy `description` to `story`. -/
def storyDescriptionStep (st : JObj) : JObj :=
  if hasKV st "description" && !hasKV st "story" then
    setKV (popKV st "description") "story" ((getKV st "description").getD .null)
  else st

/-- User-story loop, block 4: rename a legacy `title` to `story`. -/
def storyTitleStep (st : JObj) : JObj :=
  if hasKV st "title" && !hasKV st "story" then
    setKV (popKV st "title") "story" ((getKV st "title").getD .null)
  else st

/-- In-place net effect of the user-story loop body on one element. -/
def fixStoryEntry (rint : RandInt) : JValue → JValue
  | .obj st =>
    .obj (storyTitleStep (storyDescriptionStep (storyLegacyIdStep (storyFixIdStep rint st))))
  | v => v

/-- Technical-requirement loop, block 1: coerce a string `requirement_id`. -/
def reqFixIdStep (rint : RandInt) (r : JObj) : JObj :=
  match getKV r "requirement_id" with
  | some (.str rid) =>
    setKV r "requirement_id" (.str (fixIdCore "TR" 3 (randDigits3 rint) rid))
  | _ => r

/-- Technical-requirement loop, block 2: rename a legacy `id`. -/
def reqLegacyIdStep (r : JObj) : JObj :=
  if hasKV r "id" && !hasKV r "requirement_id" then
    setKV (popKV r "id") "requirement_id" ((getKV r "id").getD .null)
  else r

/-- In-place net effect of the technical-requirement loop body. -/
def fixReqEntry (rint : RandInt) : JValue → JValue
  | .obj r => .obj (reqLegacyIdStep (reqFixIdStep rint r))
  | v => v

/-- One call `fix_prd_response(response_data)`. -/
def fixPrdCall (rint : RandInt) (response_data : JObj) : FixState :=
  let st : FixState := { inp := response_data, out := response_data }
  let st := { st with out := fixDocIdBlock "PRD" rint st.out }
  let st := fixSharedList "user_stories" (fixStoryEntry rint) st
  fixSharedList "technical_requirements" (fixReqEntry rint) st

/-- Return value of `fix_prd_response`. -/
def fixPrdResponse (rint : RandInt) (d : JObj) : JObj := (fixPrdCall rint d).out

/-- The caller's `response_data` dict after `fix_prd_response` returns. -/
def fixPrdResponseInputAfter (rint : RandInt) (d : JObj) : JObj := (fixPrdCall rint d).inp

/-! ### The canonical-pattern lemmas for the identifier coercion -/

theorem matchesIdPattern_append (pre : String) (w : Nat) (t : List Char)
    (hlen : t.length = w) (hdig : ∀ c ∈ t, c.isDigit = true) :
    matchesIdPattern pre w (pre ++ "-" ++ String.mk t) = true := by
  have htl : (pre ++ "-" ++ String.mk t).toList = (pre.toList ++ ['-']) ++ t := by
    simp [String.toList]
  simp only [matchesIdPattern, htl, List.take_left, List.drop_left,
    Bool.and_eq_true, beq_iff_eq, List.all_eq_true]
  exact ⟨⟨trivial, hlen⟩, fun c hc => by simpa using hdig c (by simpa using hc)⟩

theorem fixIdCore_canonical (pre : String) (w : Nat) (rnd : List Char) (s : String)
    (hrlen : rnd.length = w) (hrdig : ∀ c ∈ rnd, c.isDigit = true) :
    matchesIdPattern pre w (fixIdCore pre w rnd s) = true := by
  unfold fixIdCore
  have hdsdig : ∀ c ∈ extractDigits s, c.isDigit = true := by
    intro c hc; exact (List.mem_filter.mp hc).2
  by_cases h1 : w ≤ (extractDigits s).length
  · rw [if_pos h1]
    apply matchesIdPattern_append
    · simp [List.length_take]; omega
    · intro c hc; exact hdsdig c (List.mem_of_mem_take hc)
  · rw [if_neg h1]
    by_cases h2 : 0 < (extractDigits s).length
    · rw [if_pos h2]
      apply matchesIdPattern_append
      · simp [zfillChars]; omega
      · intro c hc
        rcases List.mem_append.mp hc with h | h
        · rw [List.eq_of_mem_replicate h]; decide
        · exact hdsdig c h
    · rw [if_neg h2]
      exact matchesIdPattern_append pre w rnd hrlen hrdig

theorem randDigits6_spec (rint : RandInt)
    (h1 : 100000 ≤ rint 100000 999999) (h2 : rint 100000 999999 ≤ 999999) :
    (randDigits6 rint).length = 6 ∧ ∀ c ∈ randDigits6 rint, c.isDigit = true :=
  ⟨decChars_length_six h1 h2, decChars_digits _⟩

theorem randDigits3_spec (rint : RandInt)
    (h1 : 100 ≤ rint 100 999) (h2 : rint 100 999 ≤ 999) :
    (randDigits3 rint).length = 3 ∧ ∀ c ∈ randDigits3 rint, c.isDigit = true := by
  constructor
  · simp [randDigits3, zfillChars, decChars_length_three h1 h2]
  · intro c hc
    rcases List.mem_append.mp hc with h | h
    · rw [List.eq_of_mem_replicate h]; decide
    · exact decChars_digits _ c h

/-! ## `src/core/models.py`

The pydantic models.  Constraint checking ("pydantic validation") is modelled
as a first-error decode: pydantic v2 validates fields in declaration order and
collects the failures in that order, so the first failing location determines
(and here stands for) the distinct `ValidationError` the caller observes.
`datetime` metadata fields (`created_at`, `updated_at`) and the free-form
`Dict[str, Any]` optional fields (`timeline`, `features`, `release_plan`, …)
are not consulted by any claim and are left out of the Lean records. -/

inductive Priority where
  | high | medium | low
deriving DecidableEq, Repr

/-- `Priority(value)` — raises `ValueError` on anything else. -/
def parsePriority : String → Option Priority
  | "high" => some .high
  | "medium" => some .medium
  | "low" => some .low
  | _ => none

inductive DocumentType where
  | brd | prd | both
deriving DecidableEq, Repr

def DocumentType.value : DocumentType → String
  | .brd => "brd"
  | .prd => "prd"
  | .both => "both"

inductive ComplexityLevel where
  | simple | moderate | complex
deriving DecidableEq, Repr

def ComplexityLevel.value : ComplexityLevel → String
  | .simple => "simple"
  | .moderate => "moderate"
  | .complex => "complex"

inductive ValidationStatus where
  | passed | failed | warning
deriving DecidableEq, Repr

structure BusinessObjective where
  objective_id : String
  description : String
  success_criteria : List String
  business_value : String
  priority : Priority
  kpi_metrics : Option (List String) := none
deriving DecidableEq, Repr

structure Stakeholder where
  name : String
  role : String
  interest_level : String
  influence_level : String
deriving DecidableEq, Repr

structure BRDDocument where
  document_id : String
  version : String
  title : String
  executive_summary : String
  business_context : String
  problem_statement : String
  objectives : List BusinessObjective
  scope : List (String × List String)
  constraints : Option (List String) := none
  assumptions : Option (List String) := none
  risks : Option (List (List (String × String))) := none
  stakeholders : List Stakeholder
  success_metrics : List String
deriving DecidableEq, Repr

structure UserStory where
  story_id : String
  persona_id : Option String := none
  story : String
  acceptance_criteria : List String
  priority : Priority
  story_points : Int
  dependencies : List String := []
deriving DecidableEq, Repr

structure TechnicalRequirement where
  requirement_id : String
  category : String
  description : String
  technology_stack : List String := []
  constraints : List String := []
deriving DecidableEq, Repr

structure PRDDocument where
  document_id : String
  version : String
  related_brd_id : Option String := none
  product_name : String
  product_vision : String
  target_audience : List String
  value_proposition : String
  user_stories : List UserStory
  technical_requirements : List TechnicalRequirement
  technology_stack : List String
  acceptance_criteria : List String
  metrics_and_kpis : List String
deriving DecidableEq, Repr

structure CostMetadata where
  provider : String
  model_name : String
  input_tokens : Int
  output_tokens : Int
  cost_per_1k_input : ℚ
  cost_per_1k_output : ℚ
  total_cost : ℚ
  generation_time_ms : ℚ
  cached : Bool := false
deriving DecidableEq, Repr

/-- The regex `^[a-z]{2}$` on the `language` field. -/
def isLangCode (s : String) : Bool :=
  s.toList.length == 2 && s.toList.all (fun c => 'a' ≤ c && c ≤ 'z')

structure GenerationRequest where
  user_idea : String
  document_type : DocumentType
  complexity : ComplexityLevel
  max_cost : ℚ
  include_examples : Bool
  language : String
deriving DecidableEq, Repr

/-- Pydantic construction of a `GenerationRequest`: apply the declared
defaults for omitted fields, then check each field constraint
(`user_idea`: 50–10000 chars; `max_cost`: `gt=0, le=10.0`; `language`:
`^[a-z]{2}$`); construction raises (here: `none`) iff a constraint fails.
The free-form `custom_requirements`/`additional_context` dicts carry no
constraints and are omitted. -/
def mkGenerationRequest (user_idea : String) (document_type : Option DocumentType)
    (complexity : Option ComplexityLevel) (max_cost : Option ℚ)
    (include_examples : Option Bool) (language : Option String) :
    Option GenerationRequest :=
  let dt := document_type.getD .both
  let cx := complexity.getD .moderate
  let mc := max_cost.getD 2
  let lang := language.getD "en"
  if 50 ≤ user_idea.length && user_idea.length ≤ 10000
      && decide (0 < mc) && decide (mc ≤ 10) && isLangCode lang then
    some { user_idea := user_idea, document_type := dt, complexity := cx,
           max_cost := mc, include_examples := include_examples.getD true,
           language := lang }
  else none

/-! ## `src/llm/openai_strategy.py` — `_parse_brd_response`

Decoding a parsed provider payload into `BRDDocument`.  Python exceptions are
told apart by their class and content: `KeyError(k)` from a `response[k]`
access, `ValueError` from `Priority(...)`, a pydantic `ValidationError`
(identified by its first failing location in field-declaration order), and
`TypeError` from indexing a non-dict — the last is *not* caught by the
`except (KeyError, ValueError)` handler in the source. -/

inductive ParseErr where
  | keyErr (k : String)
  | valueErr (what : String)
  | fieldErr (loc : String)
  | typeErr
deriving DecidableEq, Repr

/-- `d[k]` on a Python dict. -/
def getItem (o : JObj) (k : String) : Except ParseErr JValue :=
  match getKV o k with
  | some v => .ok v
  | none => .error (.keyErr k)

/-- `for x in v`: Python iteration over the value found under a key
(JSON arrays iterate elements; strings iterate 1-character strings; dicts
iterate keys; anything else raises `TypeError`). -/
def pyIterate : JValue → Except ParseErr (List JValue)
  | .arr xs => .ok xs
  | .str s => .ok (s.toList.map (fun c => .str (String.mk [c])))
  | .obj kvs => .ok (kvs.map (fun kv => .str kv.1))
  | _ => .error .typeErr

/-- A `str`-typed pydantic field with optional min/max length. -/
def checkStrField (fieldName : String) (minLen : Nat) (maxLen : Option Nat)
    (v : JValue) : Except ParseErr String :=
  match v with
  | .str s =>
    if minLen ≤ s.length && (match maxLen with | some m => s.length ≤ m | none => true)
    then .ok s else .error (.fieldErr fieldName)
  | _ => .error (.fieldErr fieldName)

/-- A `List[str]`-typed pydantic field. -/
def checkStrListField (fieldName : String) (v : JValue) : Except ParseErr (List String) :=
  match v with
  | .arr xs =>
    xs.mapM (fun x => match x with
      | JValue.str s => Except.ok s
      | _ => Except.error (ParseErr.fieldErr fieldName))
  | _ => .error (.fieldErr fieldName)

/-- Pydantic validation of `BusinessObjective` at construction
(first failing field, in declaration order: `objective_id` pattern
`^OBJ-\d{3}$`, `description` ≥ 20, `success_criteria` list of ≥10-char
strings with ≥ 1 entry, `business_value` ≥ 10). -/
def mkBusinessObjective (oid desc sc bv : JValue) (prio : Priority) :
    Except ParseErr BusinessObjective := do
  let oidS ← match oid with
    | .str s =>
      if matchesIdPattern "OBJ" 3 s then Except.ok s
      else Except.error (ParseErr.fieldErr "objective_id")
    | _ => Except.error (ParseErr.fieldErr "objective_id")
  let descS ← checkStrField "description" 20 none desc
  let scL ← checkStrListField "success_criteria" sc
  if scL.length < 1 then .error (.fieldErr "success_criteria")
  else if !scL.all (fun cr => 10 ≤ cr.length) then .error (.fieldErr "success_criteria")
  else do
    let bvS ← checkStrField "business_value" 10 none bv
    pure { objective_id := oidS, description := descS, success_criteria := scL,
           business_value := bvS, priority := prio }

/-- The body of the objectives loop: the five `obj[...]` accesses and the
`Priority(...)` conversion are evaluated left to right before the pydantic
construction. -/
def parseObjectiveEntry (v : JValue) : Except ParseErr BusinessObjective :=
  match v with
  | .obj o => do
    let oid ← getItem o "objective_id"
    let desc ← getItem o "description"
    let sc ← getItem o "success_criteria"
    let bv ← getItem o "business_value"
    let pv ← getItem o "priority"
    let prio ← match pv with
      | .str p =>
        match parsePriority p with
        | some x => Except.ok x
        | none => Except.error (ParseErr.valueErr "priority")
      | _ => Except.error (ParseErr.valueErr "priority")
    mkBusinessObjective oid desc sc bv prio
  | _ => .error .typeErr

/-- Split a character list on `'.'` separators. -/
def splitOnDotAux : List Char → List Char → List (List Char)
  | [], acc => [acc.reverse]
  | c :: rest, acc =>
    if c = '.' then acc.reverse :: splitOnDotAux rest []
    else splitOnDotAux rest (c :: acc)

/-- The regex `^[0-9]+\.[0-9]+\.[0-9]+$` on the `version` field: exactly
three nonempty digit groups separated by dots. -/
def isSemver (s : String) : Bool :=
  match splitOnDotAux s.toList [] with
  | [a, b, c] =>
    !a.isEmpty && a.all Char.isDigit
      && !b.isEmpty && b.all Char.isDigit
      && !c.isEmpty && c.all Char.isDigit
  | _ => false

/-- `BRDDocument(**document_data)` for the `document_data` dict built by
`_parse_brd_response`.  Pydantic validates fields in declaration order;
the `document_data` dict never contains `title` (nor `problem_statement`
nor `success_metrics`), which are required fields of `BRDDocument`, so after
`document_id` and `version` pass, the first failure is always the missing
`title`; the remaining supplied values can never be the first failing
location and cannot change the outcome.  Extra keys (`created_date`,
`last_modified`, `status`, `project_name`, `requirements`,
`success_criteria`, `timeline_milestones`) are ignored
(pydantic default `extra='ignore'`). -/
def decodeBRDDocumentData (document_id version : JValue) :
    Except ParseErr BRDDocument := do
  let _ ← match document_id with
    | .str s =>
      if matchesIdPattern "BRD" 6 s then Except.ok s
      else Except.error (ParseErr.fieldErr "document_id")
    | _ => Except.error (ParseErr.fieldErr "document_id")
  let _ ← match version with
    | .str s => if isSemver s then Except.ok s else Except.error (ParseErr.fieldErr "version")
    | _ => Except.error (ParseErr.fieldErr "version")
  .error (.fieldErr "title")

/-- `OpenAIStrategy._parse_brd_response(response)`.  `nowTag` stands for
`datetime.now().strftime('%H%M%S')` in the `document_id` default.
The `response[...]` accesses of the `document_data` literal are evaluated in
source order (`project_name`, `executive_summary`, `business_context`,
`scope` can raise `KeyError`), after the objectives loop. -/
def openaiParseBrdResponse (nowTag : String) (resp : JObj) :
    Except ParseErr BRDDocument := do
  let objElems ← match getKV resp "objectives" with
    | none => Except.ok []
    | some v => pyIterate v
  let _objectives ← objElems.mapM parseObjectiveEntry
  let document_id := (getKV resp "document_id").getD (.str ("BRD-" ++ nowTag))
  let _ ← getItem resp "project_name"
  let version := (getKV resp "version").getD (.str "1.0.0")
  let _ ← getItem resp "executive_summary"
  let _ ← getItem resp "business_context"
  let _ ← getItem resp "scope"
  decodeBRDDocumentData document_id version

/-! ## `src/llm/factory.py` — provider selection -/

inductive ProviderName where
  | openai | claude | gemini
deriving DecidableEq, Repr

inductive TaskComplexity where
  | simple | moderate | complex
deriving DecidableEq, Repr

/-- The cost fields of `_DEFAULT_CONFIGS` (exact rationals for the dollar
literals `0.01/0.03`, `0.015/0.075`, `0.00125/0.005`). -/
def defaultCostPer1kInput : ProviderName → ℚ
  | .openai => 1/100
  | .claude => 15/1000
  | .gemini => 125/100000

def defaultCostPer1kOutput : ProviderName → ℚ
  | .openai => 3/100
  | .claude => 75/1000
  | .gemini => 5/1000

/-- `_COMPLEXITY_PROVIDER_MAP`. -/
def complexityProviderMap : TaskComplexity → ProviderName
  | .simple => .gemini
  | .moderate => .openai
  | .complex => .claude

/-- `_PROVIDER_PREFERENCE_ORDER`. -/
def providerPrefOrder : List ProviderName := [.openai, .claude, .gemini]

/-- The hard-coded scan order of the cheaper-alternative loop in
`_select_provider_by_complexity`. -/
def costScanOrder : List ProviderName := [.gemini, .openai, .claude]

/-- The per-complexity `(input, output)` token buckets of
`_estimate_cost_for_provider`. -/
def tokenEstimates : TaskComplexity → Nat × Nat
  | .simple => (1000, 2000)
  | .moderate => (1500, 3000)
  | .complex => (2000, 4000)

/-- `_estimate_cost_for_provider`. -/
def estimateCostForProvider (provider : ProviderName) (complexity : TaskComplexity) : ℚ :=
  let toks := tokenEstimates complexity
  (toks.1 : ℚ) / 1000 * defaultCostPer1kInput provider
    + (toks.2 : ℚ) / 1000 * defaultCostPer1kOutput provider

/-- `_check_available_providers`: the availability list, in the source's
fixed check order, from whether each provider has a credential configured. -/
def availableProviders (hasOpenai hasClaude hasGemini : Bool) : List ProviderName :=
  (if hasOpenai then [ProviderName.openai] else [])
    ++ (if hasClaude then [ProviderName.claude] else [])
    ++ (if hasGemini then [ProviderName.gemini] else [])

/-- `_select_provider_by_complexity`.  `.error ()` models
`NoAvailableProviderError`. -/
def selectProviderByComplexity (available : List ProviderName)
    (complexity : TaskComplexity) (maxCost : Option ℚ) : Except Unit ProviderName :=
  let preferred := complexityProviderMap complexity
  let viaPref : Except Unit ProviderName :=
    match providerPrefOrder.find? (fun p => available.contains p) with
    | some p => .ok p
    | none => .error ()
  if available.contains preferred then
    match maxCost with
    | some mc =>
      if estimateCostForProvider preferred complexity ≤ mc then .ok preferred
      else
        match costScanOrder.find? (fun p =>
            available.contains p && decide (estimateCostForProvider p complexity ≤ mc)) with
        | some p => .ok p
        | none => viaPref
    | none => .ok preferred
  else viaPref

/-- `_estimate_complexity`. -/
def estimateComplexity (user_idea : String) (document_type : DocumentType) :
    TaskComplexity :=
  let len := user_idea.length
  match document_type with
  | .both => if 1000 < len then .complex else .moderate
  | _ => if len < 500 then .simple else if len < 1500 then .moderate else .complex

/-- The `ComplexityLevel → TaskComplexity` map inside `create_strategy`. -/
def mapComplexity : ComplexityLevel → TaskComplexity
  | .simple => .simple
  | .moderate => .moderate
  | .complex => .complex

/-- The provider-selection portion of `create_strategy`: an explicitly
requested provider must be in the availability list; otherwise the task
complexity is estimated (`complexity is None and user_idea and document_type`
— note the truthiness test on `user_idea`) or mapped, defaulting to
moderate, and `_select_provider_by_complexity` decides. -/
def createStrategySelect (available : List ProviderName)
    (provider : Option ProviderName) (complexity : Option ComplexityLevel)
    (user_idea : Option String) (document_type : Option DocumentType)
    (max_cost : Option ℚ) : Except Unit ProviderName :=
  match provider with
  | some p => if available.contains p then .ok p else .error ()
  | none =>
    let task :=
      match complexity, user_idea, document_type with
      | none, some idea, some dt =>
        if idea = "" then TaskComplexity.moderate else estimateComplexity idea dt
      | some c, _, _ => mapComplexity c
      | none, _, _ => TaskComplexity.moderate
    selectProviderByComplexity available task max_cost

/-! ## `src/llm/client.py` — config, retry wrapper, cost arithmetic -/

structure LLMConfig where
  api_key : String
  model_name : String
  max_tokens : Int := 4096
  temperature : ℚ := 7/10
  timeout : Int := 30
  max_retries : Int := 3
  base_delay : ℚ := 1
  cost_per_1k_input : ℚ
  cost_per_1k_output : ℚ
  requests_per_minute : Int := 60
  tokens_per_minute : Int := 90000
deriving DecidableEq, Repr

/-- The error taxonomy as the exception classes of `core/exceptions.py`.
Each constructor is a distinct direct subclass of `LLMError`; in particular
`LLMTimeoutError` is *not* a subclass of `LLMConnectionError` or
`LLMRateLimitError`. -/
inductive LLMErr where
  | rateLimit
  | connection
  | invalidResponse
  | timeout
  | costExceeded
  | otherErr (tag : String)
deriving DecidableEq, Repr

/-- The exception classes caught by the two retrying `except` clauses of
`retry_with_backoff` (`LLMRateLimitError`; `LLMConnectionError` and
`LLMInvalidResponseError`).  Both clauses sleep the same backoff, so they are
merged; everything else hits `except Exception: raise`. -/
def retryable : LLMErr → Bool
  | .rateLimit => true
  | .connection => true
  | .invalidResponse => true
  | _ => false

/-- Observable outcome of one wrapped call: the returned value, the exception
that propagated, or Python's implicit `None` when the `for` loop body never
ran (`max_retries = 0`). -/
inductive RetryResult (α : Type) where
  | ok (a : α)
  | raised (e : LLMErr)
  | noneReturned
deriving DecidableEq, Repr

/-- The loop of `retry_with_backoff`: `f attempt` is the outcome of the
wrapped call on that attempt; the returned triple is (outcome, backoff delays
slept, number of calls made). -/
def retryAux (f : Nat → Except LLMErr α) (maxRetries : Nat) (baseDelay : ℚ) :
    Nat → Nat → Option LLMErr → List ℚ → Nat → RetryResult α × List ℚ × Nat
  | _, 0, last, ds, n =>
    (match last with
     | some e => .raised e
     | none => .noneReturned, ds, n)
  | attempt, r + 1, _, ds, n =>
    match f attempt with
    | .ok a => (.ok a, ds, n + 1)
    | .error e =>
      if retryable e then
        let ds' := if attempt < maxRetries - 1 then ds ++ [baseDelay * 2 ^ attempt] else ds
        retryAux f maxRetries baseDelay (attempt + 1) r (some e) ds' (n + 1)
      else (.raised e, ds, n + 1)

/-- `retry_with_backoff(max_retries, base_delay)` applied to a call whose
attempt-by-attempt outcomes are `f`. -/
def retryWithBackoff (maxRetries : Nat) (baseDelay : ℚ)
    (f : Nat → Except LLMErr α) : RetryResult α × List ℚ × Nat :=
  retryAux f maxRetries baseDelay 0 maxRetries none [] 0

/-- `generate_brd` / `generate_prd` are decorated `@retry_with_backoff()` —
the decorator is applied with *no arguments* at class-definition time, so the
wrapper always uses the decorator defaults `max_retries=3, base_delay=1.0`;
the strategy's `LLMConfig` (`cfg`) is not consulted by the wrapper. -/
def generateBrdRetryWrapper (cfg : LLMConfig) (body : Nat → Except LLMErr α) :
    RetryResult α × List ℚ × Nat :=
  let _ := cfg
  retryWithBackoff 3 1 body

/-- `LLMStrategy._calculate_cost` (the `round(…, 4)` is exact on these
rationals' role in the claims and is modelled as rounding to 4 decimal
places, half away from zero, as Python's `round` on a `float` result;
no claim depends on the tie behaviour). -/
def roundTo4 (q : ℚ) : ℚ := (Rat.floor (q * 10000 + 1/2) : ℚ) / 10000

def calculateCost (cfg : LLMConfig) (inputTokens outputTokens : Int) : ℚ :=
  roundTo4 ((inputTokens : ℚ) / 1000 * cfg.cost_per_1k_input
    + (outputTokens : ℚ) / 1000 * cfg.cost_per_1k_output)

/-! ## `src/core/multi_llm_generator.py` — combined cost metadata -/

/-- The `costs_by_provider` dict accumulated across the three phases, in
insertion order. -/
def costsByProvider (geminiCost gptCost claudeCost : CostMetadata) :
    List (String × ℚ) :=
  [("gemini", geminiCost.total_cost), ("openai", gptCost.total_cost),
   ("claude", claudeCost.total_cost)]

/-- The combined `CostMetadata` built at the end of
`generate_brd_sequential` / `generate_prd_sequential`.  The source also
passes `breakdown=costs_by_provider` to the constructor, but `CostMetadata`
(models.py) declares no `breakdown` field and pydantic's default
`extra='ignore'` silently drops the keyword: the combined record retains no
per-phase breakdown. -/
def combineSequentialCosts (geminiCost gptCost claudeCost : CostMetadata) :
    CostMetadata :=
  let total_cost := geminiCost.total_cost + gptCost.total_cost + claudeCost.total_cost
  let total_input_tokens := geminiCost.input_tokens + gptCost.input_tokens
    + claudeCost.input_tokens
  let total_output_tokens := geminiCost.output_tokens + gptCost.output_tokens
    + claudeCost.output_tokens
  let total_tokens := total_input_tokens + total_output_tokens
  let avg_cost_per_1k : ℚ :=
    if 0 < total_tokens then total_cost / ((total_tokens : ℚ) / 1000) else 0
  { provider := "multi-llm",
    model_name := "gemini-2.0-flash-exp + gpt-4-turbo + claude-opus-4.1",
    total_cost := total_cost,
    input_tokens := total_input_tokens,
    output_tokens := total_output_tokens,
    cost_per_1k_input := avg_cost_per_1k,
    cost_per_1k_output := avg_cost_per_1k,
    generation_time_ms := geminiCost.generation_time_ms + gptCost.generation_time_ms
      + claudeCost.generation_time_ms,
    cached := false }

/-! ## `src/core/generator.py` — `generate` / `_validate_and_store`

The repository and validator are the external collaborators of the spec; they
are abstracted as an environment: the outcomes of `_generate_brd` /
`_generate_prd` (which already embed provider selection, chunking and the
`related_brd_id` link), the `overall_status` each validation returns
(`is_valid` is `overall_status != FAILED`), and a log of repository
operations (modelled as succeeding; `save_brd`/`save_prd` failures are
swallowed with a warning in the source and change nothing observable here).
On an exception the source marks its local response `failed` and re-raises:
the caller observes the exception, never that response object. -/

inductive GenFailure where
  | brdValidationFailed
  | prdValidationFailed
  | upstream (tag : String)
deriving DecidableEq, Repr

inductive RepoOp where
  | saveBrd (docId : String)
  | savePrd (docId : String)
  | saveValidation (docId : String)
  | saveHistory (requestId : String)
deriving DecidableEq, Repr

inductive MetaVal where
  | strVal (s : String)
  | costVal (c : CostMetadata)
deriving DecidableEq, Repr

structure GenerationResponse where
  request_id : String
  status : String
  brd_document : Option BRDDocument
  prd_document : Option PRDDocument
  generation_metadata : List (String × MetaVal)
  cost_breakdown : List (String × ℚ)
  error_message : Option String := none
deriving DecidableEq, Repr

structure GenEnv where
  genBrd : Except GenFailure (BRDDocument × CostMetadata)
  genPrd : Except GenFailure (PRDDocument × CostMetadata)
  validateBrd : BRDDocument → ValidationStatus
  validatePrd : PRDDocument → ValidationStatus

/-- `DocumentGenerator._combine_costs` (the BOTH branch; note the `/ 2`
average on the per-1K rates, unlike the multi-pass combiner). -/
def combineCosts (cost1 cost2 : CostMetadata) : CostMetadata :=
  { provider := cost1.provider ++ "+" ++ cost2.provider,
    model_name := cost1.model_name ++ "+" ++ cost2.model_name,
    input_tokens := cost1.input_tokens + cost2.input_tokens,
    output_tokens := cost1.output_tokens + cost2.output_tokens,
    cost_per_1k_input := (cost1.cost_per_1k_input + cost2.cost_per_1k_input) / 2,
    cost_per_1k_output := (cost1.cost_per_1k_output + cost2.cost_per_1k_output) / 2,
    total_cost := cost1.total_cost + cost2.total_cost,
    generation_time_ms := cost1.generation_time_ms + cost2.generation_time_ms,
    cached := cost1.cached || cost2.cached }

/-- The PRD half of `_validate_and_store`: (repository ops performed,
raised `DocumentValidationError` if any). -/
def validateAndStorePrd (env : GenEnv) (resp : GenerationResponse) :
    List RepoOp × Option GenFailure :=
  match resp.prd_document with
  | some prd =>
    if env.validatePrd prd = .failed then ([], some .prdValidationFailed)
    else ([RepoOp.savePrd prd.document_id, RepoOp.saveValidation prd.document_id], none)
  | none => ([], none)

/-- `_validate_and_store`: BRD first (validate, store document, store
validation result), then PRD; a FAILED validation raises before the
corresponding document is stored. -/
def validateAndStore (env : GenEnv) (resp : GenerationResponse) :
    List RepoOp × Option GenFailure :=
  match resp.brd_document with
  | some brd =>
    if env.validateBrd brd = .failed then ([], some .brdValidationFailed)
    else
      let brdOps := [RepoOp.saveBrd brd.document_id, RepoOp.saveValidation brd.document_id]
      let prdRes := validateAndStorePrd env resp
      (brdOps ++ prdRes.1, prdRes.2)
  | none => validateAndStorePrd env resp

/-- `DocumentGenerator.generate`.  `requestId` stands for the
`REQ-{timestamp}` id and `nowIso` for the `datetime.now().isoformat()`
strings.  Result: (what the caller observes — the returned response or the
propagated exception —, the repository operations performed). -/
def generate (env : GenEnv) (request : GenerationRequest)
    (requestId nowIso : String) :
    Except GenFailure GenerationResponse × List RepoOp :=
  let response0 : GenerationResponse :=
    { request_id := requestId, status := "processing",
      brd_document := none, prd_document := none,
      generation_metadata :=
        [("created_at", .strVal nowIso),
         ("document_type", .strVal request.document_type.value),
         ("complexity", .strVal request.complexity.value)],
      cost_breakdown := [] }
  let built : Except GenFailure GenerationResponse :=
    match request.document_type with
    | .brd => do
      let bc ← env.genBrd
      .ok { response0 with
        brd_document := some bc.1,
        cost_breakdown := [("brd_cost", bc.2.total_cost), ("total_cost", bc.2.total_cost)],
        generation_metadata := response0.generation_metadata
          ++ [("cost_metadata", .costVal bc.2)] }
    | .prd => do
      let pc ← env.genPrd
      .ok { response0 with
        prd_document := some pc.1,
        cost_breakdown := [("prd_cost", pc.2.total_cost), ("total_cost", pc.2.total_cost)],
        generation_metadata := response0.generation_metadata
          ++ [("cost_metadata", .costVal pc.2)] }
    | .both => do
      let bc ← env.genBrd
      let pc ← env.genPrd
      let combined := combineCosts bc.2 pc.2
      .ok { response0 with
        brd_document := some bc.1, prd_document := some pc.1,
        cost_breakdown := [("brd_cost", bc.2.total_cost), ("prd_cost", pc.2.total_cost),
          ("total_cost", combined.total_cost)],
        generation_metadata := response0.generation_metadata
          ++ [("cost_metadata", .costVal combined)] }
  match built with
  | .error e => (.error e, [])
  | .ok resp =>
    match validateAndStore env resp with
    | (ops, some e) => (.error e, ops)
    | (ops, none) =>
      let done : GenerationResponse :=
        { resp with
          status := "completed",
          generation_metadata := resp.generation_metadata
            ++ [("completed_at", .strVal nowIso)] }
      (.ok done, ops ++ [RepoOp.saveHistory requestId])

/-! ## Dictionary lemmas -/

theorem getKV_replaceKV_self (d : JObj) (k : String) (v : JValue) (h : hasKV d k = true) :
    getKV (replaceKV d k v) k = some v := by
  induction d with
  | nil => simp [hasKV, getKV] at h
  | cons a tl ih =>
    by_cases ha : a.1 = k
    · simp [replaceKV, getKV, ha]
    · have h' : hasKV tl k = true := by simpa [hasKV, getKV, ha] using h
      simp [replaceKV, getKV, ha, ih h']

theorem getKV_setKV_self (d : JObj) (k : String) (v : JValue) :
    getKV (setKV d k v) k = some v := by
  unfold setKV
  by_cases h : hasKV d k
  · rw [if_pos h]
    exact getKV_replaceKV_self d k v h
  · rw [if_neg h]
    induction d with
    | nil => simp [getKV]
    | cons a tl ih =>
      have ha : ¬a.1 = k := by
        intro hc
        simp [hasKV, getKV, hc] at h
      have h' : ¬hasKV tl k = true := by simpa [hasKV, getKV, ha] using h
      simp [getKV, ha, ih h']

theorem getKV_replaceKV_ne (d : JObj) (k k' : String) (v : JValue) (h : k' ≠ k) :
    getKV (replaceKV d k v) k' = getKV d k' := by
  induction d with
  | nil => simp [replaceKV]
  | cons a tl ih =>
    by_cases ha : a.1 = k
    · simp [replaceKV, getKV, ha, Ne.symm h, ih]
    · by_cases hak : a.1 = k'
      · simp [replaceKV, getKV, ha, hak, h]
      · simp [replaceKV, getKV, ha, hak, ih]

theorem getKV_append_single_ne (d : JObj) (k k' : String) (v : JValue) (h : k' ≠ k) :
    getKV (d ++ [(k, v)]) k' = getKV d k' := by
  induction d with
  | nil => simp [getKV, Ne.symm h]
  | cons a tl ih =>
    by_cases hak : a.1 = k'
    · simp [getKV, hak]
    · simp [getKV, hak, ih]

theorem getKV_setKV_ne (d : JObj) (k k' : String) (v : JValue) (h : k' ≠ k) :
    getKV (setKV d k v) k' = getKV d k' := by
  unfold setKV
  by_cases hh : hasKV d k
  · rw [if_pos hh]
    exact getKV_replaceKV_ne d k k' v h
  · rw [if_neg hh]
    exact getKV_append_single_ne d k k' v h

theorem getKV_popKV_ne (d : JObj) (k k' : String) (h : k' ≠ k) :
    getKV (popKV d k) k' = getKV d k' := by
  induction d with
  | nil => simp [popKV]
  | cons a tl ih =>
    by_cases ha : a.1 = k
    · simp [popKV, getKV, ha, Ne.symm h, ih]
    · by_cases hak : a.1 = k'
      · simp [popKV, getKV, ha, hak, h]
      · simp [popKV, getKV, ha, hak, ih]

theorem hasKV_setKV_self (d : JObj) (k : String) (v : JValue) :
    hasKV (setKV d k v) k = true := by
  simp [hasKV, getKV_setKV_self]

/-! ### Step lemmas for the fixer pipeline -/

theorem fixDocIdBlock_getKV_ne (pre : String) (rint : RandInt) (d : JObj) (k : String)
    (h : k ≠ "document_id") :
    getKV (fixDocIdBlock pre rint d) k = getKV d k := by
  unfold fixDocIdBlock
  split
  · exact getKV_setKV_ne _ _ _ _ h
  · rfl

theorem fixDocIdBlock_docId (pre : String) (rint : RandInt) (d : JObj) (s : String)
    (h : getKV d "document_id" = some (.str s)) :
    getKV (fixDocIdBlock pre rint d) "document_id"
      = some (.str (fixIdCore pre 6 (randDigits6 rint) s)) := by
  unfold fixDocIdBlock
  rw [h]
  exact getKV_setKV_self _ _ _

theorem fixSharedList_inp_getKV_ne (key : String) (f : JValue → JValue) (st : FixState)
    (k : String) (h : k ≠ key) :
    getKV (fixSharedList key f st).inp k = getKV st.inp k := by
  unfold fixSharedList
  split
  · exact getKV_setKV_ne _ _ _ _ h
  · rfl

theorem fixSharedList_out_getKV_ne (key : String) (f : JValue → JValue) (st : FixState)
    (k : String) (h : k ≠ key) :
    getKV (fixSharedList key f st).out k = getKV st.out k := by
  unfold fixSharedList
  split
  · exact getKV_setKV_ne _ _ _ _ h
  · rfl

theorem fixSharedList_arr (key : String) (f : JValue → JValue) (st : FixState)
    (xs : List JValue) (h : getKV st.out key = some (.arr xs)) :
    fixSharedList key f st =
      { inp := setKV st.inp key (.arr (xs.map f)),
        out := setKV st.out key (.arr (xs.map f)) } := by
  unfold fixSharedList
  rw [h]

theorem objLegacyIdStep_skip (o : JObj) (h : hasKV o "objective_id" = true) :
    objLegacyIdStep o = o := by
  unfold objLegacyIdStep
  rw [h]
  simp

theorem storyLegacyIdStep_skip (st : JObj) (h : hasKV st "story_id" = true) :
    storyLegacyIdStep st = st := by
  unfold storyLegacyIdStep
  rw [h]
  simp

theorem reqLegacyIdStep_skip (r : JObj) (h : hasKV r "requirement_id" = true) :
    reqLegacyIdStep r = r := by
  unfold reqLegacyIdStep
  rw [h]
  simp

theorem objSuccessCriteriaStep_getKV_ne (o : JObj) (k : String)
    (h : k ≠ "success_criteria") :
    getKV (objSuccessCriteriaStep o) k = getKV o k := by
  unfold objSuccessCriteriaStep
  split
  · exact getKV_setKV_ne _ _ _ _ h
  · rfl

theorem objKpisStep_getKV_ne (o : JObj) (k : String) (h1 : k ≠ "kpi_metrics")
    (h2 : k ≠ "kpis") :
    getKV (objKpisStep o) k = getKV o k := by
  unfold objKpisStep
  split
  · rw [getKV_setKV_ne _ _ _ _ h1]
    exact getKV_popKV_ne _ _ _ h2
  · rfl

theorem storyDescriptionStep_getKV_ne (st : JObj) (k : String) (h1 : k ≠ "story")
    (h2 : k ≠ "description") :
    getKV (storyDescriptionStep st) k = getKV st k := by
  unfold storyDescriptionStep
  split
  · rw [getKV_setKV_ne _ _ _ _ h1]
    exact getKV_popKV_ne _ _ _ h2
  · rfl

theorem storyTitleStep_getKV_ne (st : JObj) (k : String) (h1 : k ≠ "story")
    (h2 : k ≠ "title") :
    getKV (storyTitleStep st) k = getKV st k := by
  unfold storyTitleStep
  split
  · rw [getKV_setKV_ne _ _ _ _ h1]
    exact getKV_popKV_ne _ _ _ h2
  · rfl

theorem fixObjectiveEntry_id (rint : RandInt) (o : JObj) (s : String)
    (h : getKV o "objective_id" = some (.str s)) :
    ∃ o', fixObjectiveEntry rint (.obj o) = .obj o' ∧
      getKV o' "objective_id"
        = some (.str (fixIdCore "OBJ" 3 (randDigits3 rint) s)) := by
  refine ⟨_, rfl, ?_⟩
  have h1 : getKV (objFixIdStep rint o) "objective_id"
      = some (.str (fixIdCore "OBJ" 3 (randDigits3 rint) s)) := by
    unfold objFixIdStep
    rw [h]
    exact getKV_setKV_self _ _ _
  have h2 : objLegacyIdStep (objFixIdStep rint o) = objFixIdStep rint o :=
    objLegacyIdStep_skip _ (by simp [hasKV, h1])
  rw [objKpisStep_getKV_ne _ _ (by decide) (by decide),
    objSuccessCriteriaStep_getKV_ne _ _ (by decide), h2, h1]

theorem fixStoryEntry_id (rint : RandInt) (st : JObj) (s : String)
    (h : getKV st "story_id" = some (.str s)) :
    ∃ st', fixStoryEntry rint (.obj st) = .obj st' ∧
      getKV st' "story_id" = some (.str (fixIdCore "US" 3 (randDigits3 rint) s)) := by
  refine ⟨_, rfl, ?_⟩
  have h1 : getKV (storyFixIdStep rint st) "story_id"
      = some (.str (fixIdCore "US" 3 (randDigits3 rint) s)) := by
    unfold storyFixIdStep
    rw [h]
    exact getKV_setKV_self _ _ _
  have h2 : storyLegacyIdStep (storyFixIdStep rint st) = storyFixIdStep rint st :=
    storyLegacyIdStep_skip _ (by simp [hasKV, h1])
  rw [storyTitleStep_getKV_ne _ _ (by decide) (by decide),
    storyDescriptionStep_getKV_ne _ _ (by decide) (by decide), h2, h1]

theorem fixReqEntry_id (rint : RandInt) (r : JObj) (s : String)
    (h : getKV r "requirement_id" = some (.str s)) :
    ∃ r', fixReqEntry rint (.obj r) = .obj r' ∧
      getKV r' "requirement_id"
        = some (.str (fixIdCore "TR" 3 (randDigits3 rint) s)) := by
  refine ⟨_, rfl, ?_⟩
  have h1 : getKV (reqFixIdStep rint r) "requirement_id"
      = some (.str (fixIdCore "TR" 3 (randDigits3 rint) s)) := by
    unfold reqFixIdStep
    rw [h]
    exact getKV_setKV_self _ _ _
  have h2 : reqLegacyIdStep (reqFixIdStep rint r) = reqFixIdStep rint r :=
    reqLegacyIdStep_skip _ (by simp [hasKV, h1])
  rw [h2, h1]

theorem backfillDefaults_getKV_ne (field : String) (d : JObj) (k : String)
    (h : k ≠ field) :
    getKV (backfillDefaults field d) k = getKV d k := by
  unfold backfillDefaults
  by_cases h1 : (field == "title") = true
  · rw [if_pos h1]
    exact getKV_setKV_ne _ _ _ _ (by rw [eq_of_beq h1] at h; exact h)
  · rw [if_neg h1]
    by_cases h2 : (field == "problem_statement") = true
    · rw [if_pos h2]
      exact getKV_setKV_ne _ _ _ _ (by rw [eq_of_beq h2] at h; exact h)
    · rw [if_neg h2]
      by_cases h3 : (field == "success_metrics") = true
      · rw [if_pos h3]
        split
        · rfl
        · exact getKV_setKV_ne _ _ _ _ (by rw [eq_of_beq h3] at h; exact h)
      · rw [if_neg h3]

theorem backfillField_getKV_ne (field : String) (d : JObj) (k : String)
    (h : k ≠ field) :
    getKV (backfillField field d) k = getKV d k := by
  unfold backfillField
  split
  · cases hn : findNested d field with
    | some v =>
      simp only [hn]
      split
      · rw [backfillDefaults_getKV_ne _ _ _ h, getKV_setKV_ne _ _ _ _ h]
      · exact getKV_setKV_ne _ _ _ _ h
    | none =>
      simp only [hn]
      cases ha : findAlt d field with
      | some v =>
        simp only [ha]
        split
        · rw [backfillDefaults_getKV_ne _ _ _ h, getKV_setKV_ne _ _ _ _ h]
        · exact getKV_setKV_ne _ _ _ _ h
      | none =>
        simp only [ha]
        split
        · exact backfillDefaults_getKV_ne _ _ _ h
        · rfl
  · rfl

theorem backfillRootFields_getKV_ne (d : JObj) (k : String)
    (h1 : k ≠ "title") (h2 : k ≠ "executive_summary") (h3 : k ≠ "business_context")
    (h4 : k ≠ "problem_statement") (h5 : k ≠ "success_metrics") :
    getKV (backfillRootFields d) k = getKV d k := by
  simp only [backfillRootFields, List.foldl]
  rw [backfillField_getKV_ne _ _ _ h5, backfillField_getKV_ne _ _ _ h4,
    backfillField_getKV_ne _ _ _ h3, backfillField_getKV_ne _ _ _ h2,
    backfillField_getKV_ne _ _ _ h1]

/-! ## The claims -/

/-- A fixed model of the RNG for concrete counterexamples and witnesses:
every `randint(lo, hi)` call returns `lo`. -/
def rz0 : RandInt := fun lo _ => lo

/-- Helper for C6: every provider `_select_provider_by_complexity` returns is
drawn from the availability list. -/
theorem selectProviderByComplexity_mem (available : List ProviderName)
    (complexity : TaskComplexity) (maxCost : Option ℚ) (p : ProviderName)
    (h : selectProviderByComplexity available complexity maxCost = .ok p) :
    p ∈ available := by
  simp only [selectProviderByComplexity] at h
  split at h
  · -- preferred provider is available
    rename_i hpref
    split at h
    · -- maxCost = some mc
      split at h
      · cases h
        simpa using hpref
      · split at h
        · rename_i q hfind
          cases h
          have := List.find?_some hfind
          simp only [Bool.and_eq_true, decide_eq_true_eq] at this
          simpa using this.1
        · split at h
          · rename_i q hf2
            cases h
            have := List.find?_some hf2
            simpa using this
          · cases h
    · -- maxCost = none
      cases h
      simpa using hpref
  · -- preferred provider unavailable: preference-order fallback
    split at h
    · rename_i q hf2
      cases h
      have := List.find?_some hf2
      simpa using this
    · cases h

/-- C6: for every complexity and optional max-cost (and for the
`create_strategy` entry point, every explicit provider request / complexity
estimation input), provider selection only ever returns a member of the
configured-available list; it never returns a provider outside it. -/
theorem c6_selection_within_available_set :
    (∀ (available : List ProviderName) (complexity : TaskComplexity)
       (maxCost : Option ℚ) (p : ProviderName),
       selectProviderByComplexity available complexity maxCost = .ok p →
       p ∈ available) ∧
    (∀ (available : List ProviderName) (provider : Option ProviderName)
       (complexity : Option ComplexityLevel) (idea : Option String)
       (dt : Option DocumentType) (mc : Option ℚ) (p : ProviderName),
       createStrategySelect available provider complexity idea dt mc = .ok p →
       p ∈ available) := by
  refine ⟨selectProviderByComplexity_mem, ?_⟩
  intro available provider complexity idea dt mc p h
  simp only [createStrategySelect] at h
  split at h
  · split at h
    · rename_i hq
      cases h
      simpa using hq
    · cases h
  · exact selectProviderByComplexity_mem _ _ _ _ h

/-- C6 witness: a concrete run of the theorem at `available = [gemini]`,
`complexity = simple`, no cost bound. -/
theorem c6_witness : ProviderName.gemini ∈ [ProviderName.gemini] :=
  c6_selection_within_available_set.1 [ProviderName.gemini] .simple none .gemini rfl

/-- C2 counterexample: with all three providers available,
`selectProvider(complexity=complex, maxCost=0.01)` does NOT return the
cheapest provider (Gemini): at complex the cheapest estimate is Gemini's
$0.0225 > $0.01, so the affordability scan finds nothing and the fixed
preference-order fallback returns OpenAI. -/
theorem c2_counterexample :
    selectProviderByComplexity (availableProviders true true true) .complex
      (some (1/100)) = .ok .openai ∧ ProviderName.openai ≠ ProviderName.gemini := by
  constructor
  · simp only [selectProviderByComplexity, availableProviders, complexityProviderMap]
    norm_num [List.contains, List.elem, costScanOrder, providerPrefOrder, List.find?,
      estimateCostForProvider, tokenEstimates, defaultCostPer1kInput, defaultCostPer1kOutput]
  · decide

/-- C2 (amended): with maxCost = $0.01 no provider's complex-bucket estimate
is affordable (the cheapest, Gemini, estimates $0.0225), so selection falls
back to the fixed preference order and returns OpenAI — neither the
complexity-preferred Claude nor the cheapest Gemini; the cheapest provider is
returned only once the budget admits it (e.g. maxCost = $0.025 yields
Gemini). -/
theorem c2_amended_fallback_to_openai :
    selectProviderByComplexity (availableProviders true true true) .complex
      (some (1/100)) = .ok .openai ∧
    selectProviderByComplexity (availableProviders true true true) .complex
      (some (1/40)) = .ok .gemini ∧
    complexityProviderMap .complex = .claude ∧
    estimateCostForProvider .gemini .complex = 9/400 := by
  refine ⟨?_, ?_, rfl, ?_⟩
  · simp only [selectProviderByComplexity, availableProviders, complexityProviderMap]
    norm_num [List.contains, List.elem, costScanOrder, providerPrefOrder, List.find?,
      estimateCostForProvider, tokenEstimates, defaultCostPer1kInput, defaultCostPer1kOutput]
  · simp only [selectProviderByComplexity, availableProviders, complexityProviderMap]
    norm_num [List.contains, List.elem, costScanOrder, providerPrefOrder, List.find?,
      estimateCostForProvider, tokenEstimates, defaultCostPer1kInput, defaultCostPer1kOutput]
    rfl
  · norm_num [estimateCostForProvider, tokenEstimates, defaultCostPer1kInput,
      defaultCostPer1kOutput]

/-- C4 counterexample: a wrapped call that always raises `LLMTimeoutError`
propagates it after a single attempt (no backoff sleeps), while e.g.
`LLMRateLimitError` is retried to the ceiling of 3 attempts — the timeout is
NOT retried like the other transient errors. -/
theorem c4_counterexample :
    retryWithBackoff 3 1 (fun _ => (.error .timeout : Except LLMErr Unit))
      = (.raised .timeout, [], 1) ∧
    retryWithBackoff 3 1 (fun _ => (.error .rateLimit : Except LLMErr Unit))
      = (.raised .rateLimit, [1, 2], 3) := by
  constructor
  · rfl
  · norm_num [retryWithBackoff, retryAux, retryable]

/-- C4 (amended): `LLMTimeoutError` is outside both retrying `except`
clauses of `retry_with_backoff` (it subclasses `LLMError` directly, not
`LLMConnectionError`/`LLMRateLimitError`), so it hits the catch-all and
propagates immediately after the first attempt, with no backoff sleep. -/
theorem c4_amended_timeout_not_retried {α : Type}
    (f : Nat → Except LLMErr α) (h : f 0 = .error .timeout) :
    retryWithBackoff 3 1 f = (.raised .timeout, [], 1) := by
  simp [retryWithBackoff, retryAux, h, retryable]

/-- C4 witness: the amended theorem applied to the constant-timeout call. -/
theorem c4_witness :
    retryWithBackoff 3 1 (fun _ => (.error .timeout : Except LLMErr Unit))
      = (.raised .timeout, [], 1) :=
  c4_amended_timeout_not_retried (fun _ => .error .timeout) rfl

/-- A config whose retry fields differ from the decorator defaults, showing
they are ignored. -/
def cfgRetryOne : LLMConfig :=
  { api_key := "k", model_name := "m", max_retries := 1, base_delay := 5,
    cost_per_1k_input := 1/100, cost_per_1k_output := 3/100 }

/-- C7 counterexample: `generate_brd`'s wrapper is `@retry_with_backoff()`
— applied with no arguments — so with `max_retries = 1, base_delay = 5.0`
configured, a persistently rate-limited call is still attempted 3 times with
delays 1·2⁰, 1·2¹ (not ≤ 1 attempt, not delays 5·2ⁱ). -/
theorem c7_counterexample :
    generateBrdRetryWrapper cfgRetryOne (fun _ => (.error .rateLimit : Except LLMErr Unit))
      = (.raised .rateLimit, [1, 2], 3) ∧
    ¬((3 : Int) ≤ cfgRetryOne.max_retries) ∧
    cfgRetryOne.base_delay ≠ 1 := by
  refine ⟨?_, by decide, by norm_num [cfgRetryOne]⟩
  norm_num [generateBrdRetryWrapper, retryWithBackoff, retryAux, retryable]

theorem retryAux_calls_le {α : Type} (f : Nat → Except LLMErr α) (m : Nat) (b : ℚ) :
    ∀ (r attempt : Nat) (last : Option LLMErr) (ds : List ℚ) (n : Nat),
    (retryAux f m b attempt r last ds n).2.2 ≤ n + r := by
  intro r
  induction r with
  | zero =>
    intro attempt last ds n
    cases last <;> simp [retryAux]
  | succ r ih =>
    intro attempt last ds n
    simp only [retryAux]
    cases f attempt with
    | ok a => simp
    | error e =>
      by_cases he : retryable e
      · simp only [he, if_true]
        have := ih (attempt + 1) (some e)
          (if attempt < m - 1 then ds ++ [b * 2 ^ attempt] else ds) (n + 1)
        omega
      · simp [he]

/-- C7 (amended): the retry wrapper around `generate_brd`/`generate_prd`
uses the decorator defaults (3 attempts, base delay 1.0) regardless of the
strategy's configured `max_retries`/`base_delay`: it makes at most 3 calls;
a non-retryable first outcome propagates immediately; persistently retryable
outcomes exhaust 3 attempts with delays 1·2⁰, 1·2¹ and the last exception
propagates; a first-attempt success is returned as-is. -/
theorem c7_amended_wrapper_uses_defaults {α : Type} (cfg : LLMConfig)
    (f : Nat → Except LLMErr α) :
    ((generateBrdRetryWrapper cfg f).2.2 ≤ 3) ∧
    (∀ e, f 0 = .error e → retryable e = false →
      generateBrdRetryWrapper cfg f = (.raised e, [], 1)) ∧
    (∀ e0 e1 e2, f 0 = .error e0 → retryable e0 = true →
      f 1 = .error e1 → retryable e1 = true →
      f 2 = .error e2 → retryable e2 = true →
      generateBrdRetryWrapper cfg f = (.raised e2, [1, 2], 3)) ∧
    (∀ a, f 0 = .ok a → generateBrdRetryWrapper cfg f = (.ok a, [], 1)) := by
  refine ⟨?_, ?_, ?_, ?_⟩
  · exact retryAux_calls_le f 3 1 3 0 none [] 0
  · intro e h0 hr
    simp [generateBrdRetryWrapper, retryWithBackoff, retryAux, h0, hr]
  · intro e0 e1 e2 h0 hr0 h1 hr1 h2 hr2
    norm_num [generateBrdRetryWrapper, retryWithBackoff, retryAux, h0, hr0, h1, hr1, h2, hr2]
  · intro a h0
    simp [generateBrdRetryWrapper, retryWithBackoff, retryAux, h0]

/-- C7 witness: the amended theorem at a call that is rate-limited on every
attempt, under the `max_retries = 1` config. -/
theorem c7_witness :
    generateBrdRetryWrapper cfgRetryOne (fun _ => (.error .rateLimit : Except LLMErr Unit))
      = (.raised .rateLimit, [1, 2], 3) :=
  (c7_amended_wrapper_uses_defaults cfgRetryOne (fun _ => .error .rateLimit)).2.2.1
    .rateLimit .rateLimit .rateLimit rfl rfl rfl rfl rfl rfl

/-- C3: the combined multi-pass `CostMetadata` sums the three phases' token
counts, dollar totals and latencies exactly; the two per-1K rate fields are
equal and satisfy rate × (total tokens / 1000) = total cost whenever the
token total is positive (and 0 otherwise).  The breakdown map cannot be part
of this record: `CostMetadata` has no `breakdown` field and pydantic drops
the keyword (see `combineSequentialCosts`). -/
theorem c3_combined_cost_arithmetic (g p c : CostMetadata) :
    (combineSequentialCosts g p c).input_tokens
        = g.input_tokens + p.input_tokens + c.input_tokens
    ∧ (combineSequentialCosts g p c).output_tokens
        = g.output_tokens + p.output_tokens + c.output_tokens
    ∧ (combineSequentialCosts g p c).total_cost
        = g.total_cost + p.total_cost + c.total_cost
    ∧ (combineSequentialCosts g p c).generation_time_ms
        = g.generation_time_ms + p.generation_time_ms + c.generation_time_ms
    ∧ (combineSequentialCosts g p c).cost_per_1k_output
        = (combineSequentialCosts g p c).cost_per_1k_input
    ∧ (combineSequentialCosts g p c).cost_per_1k_input
        * ((((combineSequentialCosts g p c).input_tokens
             + (combineSequentialCosts g p c).output_tokens : Int) : ℚ) / 1000)
        = (if 0 < (combineSequentialCosts g p c).input_tokens
               + (combineSequentialCosts g p c).output_tokens
           then (combineSequentialCosts g p c).total_cost else 0) := by
  refine ⟨rfl, rfl, rfl, rfl, rfl, ?_⟩
  simp only [combineSequentialCosts]
  by_cases hT : (0:Int) < g.input_tokens + p.input_tokens + c.input_tokens
      + (g.output_tokens + p.output_tokens + c.output_tokens)
  · rw [if_pos hT, if_pos hT]
    have hne : (((g.input_tokens + p.input_tokens + c.input_tokens
        + (g.output_tokens + p.output_tokens + c.output_tokens) : Int) : ℚ)) ≠ 0 := by
      have : (0:ℚ) < ((g.input_tokens + p.input_tokens + c.input_tokens
          + (g.output_tokens + p.output_tokens + c.output_tokens) : Int) : ℚ) := by
        exact_mod_cast hT
      exact ne_of_gt this
    push_cast at hne
    field_simp
  · rw [if_neg hT, if_neg hT]
    simp

/-- C10: pydantic construction of a `GenerationRequest` (with the remaining
fields omitted, hence defaulted) succeeds exactly when `user_idea` has 50 to
10000 characters and `max_cost` (defaulted to 2.0) is in (0, 10]; and a
request built from an idea alone carries the documented defaults
`max_cost = 2.0`, `document_type = BOTH`, `complexity = MODERATE`. -/
theorem c10_generation_request_bounds_and_defaults :
    (∀ (idea : String) (dt : Option DocumentType) (cx : Option ComplexityLevel)
       (mc : Option ℚ),
       ((mkGenerationRequest idea dt cx mc none none).isSome = true ↔
         (50 ≤ idea.length ∧ idea.length ≤ 10000 ∧ 0 < mc.getD 2 ∧ mc.getD 2 ≤ 10))) ∧
    (∀ idea : String,
       mkGenerationRequest idea none none none none none
         = if 50 ≤ idea.length ∧ idea.length ≤ 10000 then
             some { user_idea := idea, document_type := .both, complexity := .moderate,
                    max_cost := 2, include_examples := true, language := "en" }
           else none) := by
  have hl : isLangCode "en" = true := rfl
  constructor
  · intro idea dt cx mc
    simp only [mkGenerationRequest, Option.getD, hl, Bool.and_true]
    split
    · rename_i h
      simp only [Bool.and_eq_true, decide_eq_true_eq] at h
      simp [h.1.1.1, h.1.1.2, h.1.2, h.2]
    · rename_i h
      simp only [Bool.and_eq_true, decide_eq_true_eq] at h
      simp only [Option.isSome_none, Bool.false_eq_true, false_iff]
      intro hc
      exact h ⟨⟨⟨hc.1, hc.2.1⟩, hc.2.2.1⟩, hc.2.2.2⟩
  · intro idea
    simp only [mkGenerationRequest, Option.getD, hl, Bool.and_true]
    by_cases hle : 50 ≤ idea.length ∧ idea.length ≤ 10000
    · rw [if_pos hle]
      split
      · rfl
      · rename_i hfalse
        exfalso
        apply hfalse
        simp only [Bool.and_eq_true, decide_eq_true_eq]
        exact ⟨⟨⟨hle.1, hle.2⟩, by norm_num⟩, by norm_num⟩
    · rw [if_neg hle]
      split
      · rename_i htrue
        exfalso
        simp only [Bool.and_eq_true, decide_eq_true_eq] at htrue
        exact hle ⟨htrue.1.1.1, htrue.1.1.2⟩
      · rfl

theorem fixBrdResponse_unfold (rint : RandInt) (d : JObj) :
    fixBrdResponse rint d
      = backfillRootFields (fixSharedList "objectives" (fixObjectiveEntry rint)
          (fixSharedList "stakeholders" fixStakeholderEntry
            ⟨d, fixDocIdBlock "BRD" rint d⟩)).out := rfl

theorem fixPrdResponse_unfold (rint : RandInt) (d : JObj) :
    fixPrdResponse rint d
      = (fixSharedList "technical_requirements" (fixReqEntry rint)
          (fixSharedList "user_stories" (fixStoryEntry rint)
            ⟨d, fixDocIdBlock "PRD" rint d⟩)).out := rfl

theorem fixBrdInputAfter_unfold (rint : RandInt) (d : JObj) :
    fixBrdResponseInputAfter rint d
      = (fixSharedList "objectives" (fixObjectiveEntry rint)
          (fixSharedList "stakeholders" fixStakeholderEntry
            ⟨d, fixDocIdBlock "BRD" rint d⟩)).inp := rfl

theorem fixPrdInputAfter_unfold (rint : RandInt) (d : JObj) :
    fixPrdResponseInputAfter rint d
      = (fixSharedList "technical_requirements" (fixReqEntry rint)
          (fixSharedList "user_stories" (fixStoryEntry rint)
            ⟨d, fixDocIdBlock "PRD" rint d⟩)).inp := rfl

/-- C8 counterexample: an identifier arriving under the legacy `id` key is
renamed to `objective_id` AFTER the coercion pass and is therefore NOT
coerced: the repaired output carries `objective_id = "first objective"`,
which does not match `OBJ-` + 3 digits. -/
theorem c8_counterexample :
    getKV (fixBrdResponse rz0
        [("objectives", JValue.arr [JValue.obj [("id", JValue.str "first objective")]])])
        "objectives"
      = some (.arr [.obj [("objective_id", .str "first objective")]]) ∧
    matchesIdPattern "OBJ" 3 "first objective" = false := by
  exact ⟨rfl, by decide⟩

/-- C8 (amended): every malformed identifier string arriving under its
canonical key (`document_id`, `objective_id`, `story_id`, `requirement_id`)
is coerced so that the corresponding output field matches the canonical
`PREFIX-` + fixed-digit-count pattern (`BRD-`/`PRD-` + 6 digits,
`OBJ-`/`US-`/`TR-` + 3 digits), given that the `randint` draws are in their
requested ranges; identifiers arriving under the legacy `id` key are renamed
but not coerced (see the counterexample). -/
theorem c8_amended_canonical_ids (rint : RandInt)
    (h6lo : 100000 ≤ rint 100000 999999) (h6hi : rint 100000 999999 ≤ 999999)
    (h3lo : 100 ≤ rint 100 999) (h3hi : rint 100 999 ≤ 999) :
    (∀ (d : JObj) (s : String), getKV d "document_id" = some (.str s) →
      ∃ t, getKV (fixBrdResponse rint d) "document_id" = some (.str t) ∧
        matchesIdPattern "BRD" 6 t = true) ∧
    (∀ (d : JObj) (s : String), getKV d "document_id" = some (.str s) →
      ∃ t, getKV (fixPrdResponse rint d) "document_id" = some (.str t) ∧
        matchesIdPattern "PRD" 6 t = true) ∧
    (∀ (d : JObj) (xs : List JValue) (o : JObj) (s : String),
      getKV d "objectives" = some (.arr xs) → JValue.obj o ∈ xs →
      getKV o "objective_id" = some (.str s) →
      ∃ ys, getKV (fixBrdResponse rint d) "objectives" = some (.arr ys) ∧
        ∃ o', JValue.obj o' ∈ ys ∧ ∃ t, getKV o' "objective_id" = some (.str t) ∧
          matchesIdPattern "OBJ" 3 t = true) ∧
    (∀ (d : JObj) (xs : List JValue) (o : JObj) (s : String),
      getKV d "user_stories" = some (.arr xs) → JValue.obj o ∈ xs →
      getKV o "story_id" = some (.str s) →
      ∃ ys, getKV (fixPrdResponse rint d) "user_stories" = some (.arr ys) ∧
        ∃ o', JValue.obj o' ∈ ys ∧ ∃ t, getKV o' "story_id" = some (.str t) ∧
          matchesIdPattern "US" 3 t = true) ∧
    (∀ (d : JObj) (xs : List JValue) (o : JObj) (s : String),
      getKV d "technical_requirements" = some (.arr xs) → JValue.obj o ∈ xs →
      getKV o "requirement_id" = some (.str s) →
      ∃ ys, getKV (fixPrdResponse rint d) "technical_requirements" = some (.arr ys) ∧
        ∃ o', JValue.obj o' ∈ ys ∧ ∃ t, getKV o' "requirement_id" = some (.str t) ∧
          matchesIdPattern "TR" 3 t = true) := by
  have hr6 := randDigits6_spec rint h6lo h6hi
  have hr3 := randDigits3_spec rint h3lo h3hi
  refine ⟨?_, ?_, ?_, ?_, ?_⟩
  · -- fix_brd_response document_id
    intro d s h
    refine ⟨fixIdCore "BRD" 6 (randDigits6 rint) s, ?_,
      fixIdCore_canonical "BRD" 6 _ s hr6.1 hr6.2⟩
    rw [fixBrdResponse_unfold,
      backfillRootFields_getKV_ne _ _ (by decide) (by decide) (by decide)
        (by decide) (by decide),
      fixSharedList_out_getKV_ne _ _ _ _ (by decide),
      fixSharedList_out_getKV_ne _ _ _ _ (by decide)]
    exact fixDocIdBlock_docId "BRD" rint d s h
  · -- fix_prd_response document_id
    intro d s h
    refine ⟨fixIdCore "PRD" 6 (randDigits6 rint) s, ?_,
      fixIdCore_canonical "PRD" 6 _ s hr6.1 hr6.2⟩
    rw [fixPrdResponse_unfold,
      fixSharedList_out_getKV_ne _ _ _ _ (by decide),
      fixSharedList_out_getKV_ne _ _ _ _ (by decide)]
    exact fixDocIdBlock_docId "PRD" rint d s h
  · -- objectives
    intro d xs o s hobjs hmem hid
    have hst2 : getKV (fixSharedList "stakeholders" fixStakeholderEntry
        ⟨d, fixDocIdBlock "BRD" rint d⟩).out "objectives" = some (.arr xs) := by
      rw [fixSharedList_out_getKV_ne _ _ _ _ (by decide)]
      show getKV (fixDocIdBlock "BRD" rint d) "objectives" = _
      rw [fixDocIdBlock_getKV_ne _ _ _ _ (by decide)]
      exact hobjs
    have h3 := fixSharedList_arr "objectives" (fixObjectiveEntry rint) _ xs hst2
    have hys : getKV (fixSharedList "objectives" (fixObjectiveEntry rint)
        (fixSharedList "stakeholders" fixStakeholderEntry
          ⟨d, fixDocIdBlock "BRD" rint d⟩)).out "objectives"
        = some (.arr (xs.map (fixObjectiveEntry rint))) := by
      rw [h3]
      exact getKV_setKV_self _ _ _
    refine ⟨xs.map (fixObjectiveEntry rint), ?_, ?_⟩
    · rw [fixBrdResponse_unfold,
        backfillRootFields_getKV_ne _ _ (by decide) (by decide) (by decide)
          (by decide) (by decide)]
      exact hys
    · obtain ⟨o', ho', hid'⟩ := fixObjectiveEntry_id rint o s hid
      exact ⟨o', by rw [← ho']; exact List.mem_map_of_mem _ hmem,
        fixIdCore "OBJ" 3 (randDigits3 rint) s, hid',
        fixIdCore_canonical "OBJ" 3 _ s hr3.1 hr3.2⟩
  · -- user stories
    intro d xs o s hsts hmem hid
    have hst1 : getKV (fixDocIdBlock "PRD" rint d) "user_stories" = some (.arr xs) := by
      rw [fixDocIdBlock_getKV_ne _ _ _ _ (by decide)]
      exact hsts
    have h2 := fixSharedList_arr "user_stories" (fixStoryEntry rint)
      ⟨d, fixDocIdBlock "PRD" rint d⟩ xs hst1
    refine ⟨xs.map (fixStoryEntry rint), ?_, ?_⟩
    · rw [fixPrdResponse_unfold,
        fixSharedList_out_getKV_ne _ _ _ _ (by decide), h2]
      exact getKV_setKV_self _ _ _
    · obtain ⟨o', ho', hid'⟩ := fixStoryEntry_id rint o s hid
      exact ⟨o', by rw [← ho']; exact List.mem_map_of_mem _ hmem,
        fixIdCore "US" 3 (randDigits3 rint) s, hid',
        fixIdCore_canonical "US" 3 _ s hr3.1 hr3.2⟩
  · -- technical requirements
    intro d xs o s hreqs hmem hid
    have hst2 : getKV (fixSharedList "user_stories" (fixStoryEntry rint)
        ⟨d, fixDocIdBlock "PRD" rint d⟩).out "technical_requirements"
        = some (.arr xs) := by
      rw [fixSharedList_out_getKV_ne _ _ _ _ (by decide)]
      show getKV (fixDocIdBlock "PRD" rint d) "technical_requirements" = _
      rw [fixDocIdBlock_getKV_ne _ _ _ _ (by decide)]
      exact hreqs
    have h3 := fixSharedList_arr "technical_requirements" (fixReqEntry rint) _ xs hst2
    refine ⟨xs.map (fixReqEntry rint), ?_, ?_⟩
    · rw [fixPrdResponse_unfold, h3]
      exact getKV_setKV_self _ _ _
    · obtain ⟨o', ho', hid'⟩ := fixReqEntry_id rint o s hid
      exact ⟨o', by rw [← ho']; exact List.mem_map_of_mem _ hmem,
        fixIdCore "TR" 3 (randDigits3 rint) s, hid',
        fixIdCore_canonical "TR" 3 _ s hr3.1 hr3.2⟩

/-- C8 witness: the amended theorem applied to the malformed id
`BRD-20231201` (8 digits — truncated to `BRD-202312`). -/
theorem c8_witness :
    ∃ t, getKV (fixBrdResponse rz0 [("document_id", JValue.str "BRD-20231201")])
        "document_id" = some (.str t) ∧ matchesIdPattern "BRD" 6 t = true :=
  (c8_amended_canonical_ids rz0 (by decide) (by decide) (by decide) (by decide)).1
    [("document_id", JValue.str "BRD-20231201")] "BRD-20231201" rfl

/-- The concrete input dict of the C9 counterexample. -/
def c9input : JObj := [("stakeholders", .arr [.obj [("name", .str "A")]])]

/-- Discriminating observation for the C9 counterexample: whether the first
stakeholder entry carries an `interest_level` key. -/
def c9proj (d : JObj) : Bool :=
  match getKV d "stakeholders" with
  | some (.arr [JValue.obj o]) => hasKV o "interest_level"
  | _ => false

/-- C9 counterexample: `fix_brd_response` starts from a SHALLOW `copy()`, so
the stakeholder dicts inside the caller's input are mutated in place: after
the call the caller's dict has gained `interest_level`/`influence_level`
entries — the input is not left unchanged. -/
theorem c9_counterexample : fixBrdResponseInputAfter rz0 c9input ≠ c9input := by
  intro h
  have h2 := congrArg c9proj h
  have hL : c9proj (fixBrdResponseInputAfter rz0 c9input) = true := rfl
  have hR : c9proj c9input = false := rfl
  rw [hL, hR] at h2
  exact Bool.noConfusion h2

/-- C9 (amended): the repair functions are pure only at the top level of
their argument — the caller's mapping keeps its binding at every key other
than the nested-list keys; but the element dicts of the nested lists
(`stakeholders`/`objectives` for BRD, `user_stories`/
`technical_requirements` for PRD) are shared through the shallow copy and
mutated in place, so after the call the caller's nested entries are the
repaired ones. -/
theorem c9_amended_shallow_copy_frame (rint : RandInt) (d : JObj) (k : String) :
    (k ≠ "stakeholders" → k ≠ "objectives" →
      getKV (fixBrdResponseInputAfter rint d) k = getKV d k) ∧
    (k ≠ "user_stories" → k ≠ "technical_requirements" →
      getKV (fixPrdResponseInputAfter rint d) k = getKV d k) ∧
    (∀ xs, getKV d "stakeholders" = some (.arr xs) →
      getKV (fixBrdResponseInputAfter rint d) "stakeholders"
        = some (.arr (xs.map fixStakeholderEntry))) ∧
    (∀ xs, getKV d "objectives" = some (.arr xs) →
      getKV (fixBrdResponseInputAfter rint d) "objectives"
        = some (.arr (xs.map (fixObjectiveEntry rint)))) ∧
    (∀ xs, getKV d "user_stories" = some (.arr xs) →
      getKV (fixPrdResponseInputAfter rint d) "user_stories"
        = some (.arr (xs.map (fixStoryEntry rint)))) ∧
    (∀ xs, getKV d "technical_requirements" = some (.arr xs) →
      getKV (fixPrdResponseInputAfter rint d) "technical_requirements"
        = some (.arr (xs.map (fixReqEntry rint)))) := by
  refine ⟨?_, ?_, ?_, ?_, ?_, ?_⟩
  · intro hk1 hk2
    rw [fixBrdInputAfter_unfold,
      fixSharedList_inp_getKV_ne _ _ _ _ hk2, fixSharedList_inp_getKV_ne _ _ _ _ hk1]
  · intro hk1 hk2
    rw [fixPrdInputAfter_unfold,
      fixSharedList_inp_getKV_ne _ _ _ _ hk2, fixSharedList_inp_getKV_ne _ _ _ _ hk1]
  · intro xs hxs
    have h1 : getKV (fixDocIdBlock "BRD" rint d) "stakeholders" = some (.arr xs) := by
      rw [fixDocIdBlock_getKV_ne _ _ _ _ (by decide)]
      exact hxs
    have h2 := fixSharedList_arr "stakeholders" fixStakeholderEntry
      ⟨d, fixDocIdBlock "BRD" rint d⟩ xs h1
    rw [fixBrdInputAfter_unfold,
      fixSharedList_inp_getKV_ne _ _ _ _ (by decide), h2]
    exact getKV_setKV_self _ _ _
  · intro xs hxs
    have hst2 : getKV (fixSharedList "stakeholders" fixStakeholderEntry
        ⟨d, fixDocIdBlock "BRD" rint d⟩).out "objectives" = some (.arr xs) := by
      rw [fixSharedList_out_getKV_ne _ _ _ _ (by decide)]
      show getKV (fixDocIdBlock "BRD" rint d) "objectives" = _
      rw [fixDocIdBlock_getKV_ne _ _ _ _ (by decide)]
      exact hxs
    have h3 := fixSharedList_arr "objectives" (fixObjectiveEntry rint) _ xs hst2
    rw [fixBrdInputAfter_unfold, h3]
    exact getKV_setKV_self _ _ _
  · intro xs hxs
    have h1 : getKV (fixDocIdBlock "PRD" rint d) "user_stories" = some (.arr xs) := by
      rw [fixDocIdBlock_getKV_ne _ _ _ _ (by decide)]
      exact hxs
    have h2 := fixSharedList_arr "user_stories" (fixStoryEntry rint)
      ⟨d, fixDocIdBlock "PRD" rint d⟩ xs h1
    rw [fixPrdInputAfter_unfold,
      fixSharedList_inp_getKV_ne _ _ _ _ (by decide), h2]
    exact getKV_setKV_self _ _ _
  · intro xs hxs
    have hst2 : getKV (fixSharedList "user_stories" (fixStoryEntry rint)
        ⟨d, fixDocIdBlock "PRD" rint d⟩).out "technical_requirements"
        = some (.arr xs) := by
      rw [fixSharedList_out_getKV_ne _ _ _ _ (by decide)]
      show getKV (fixDocIdBlock "PRD" rint d) "technical_requirements" = _
      rw [fixDocIdBlock_getKV_ne _ _ _ _ (by decide)]
      exact hxs
    have h3 := fixSharedList_arr "technical_requirements" (fixReqEntry rint) _ xs hst2
    rw [fixPrdInputAfter_unfold, h3]
    exact getKV_setKV_self _ _ _

/-- C9 witness: the frame part of the amended theorem at the concrete
counterexample input and an untouched key. -/
theorem c9_witness :
    getKV (fixBrdResponseInputAfter rz0 c9input) "document_id"
      = getKV c9input "document_id" :=
  (c9_amended_shallow_copy_frame rz0 c9input "document_id").1 (by decide) (by decide)

theorem except_bind_ok {ε α β : Type _} (a : α) (f : α → Except ε β) :
    (Except.ok a : Except ε α) >>= f = f a := rfl

theorem except_bind_error {ε α β : Type _} (e : ε) (f : α → Except ε β) :
    (Except.error e : Except ε α) >>= f = Except.error e := rfl

/-- A concrete business objective. -/
def sampleObjective : BusinessObjective :=
  { objective_id := "OBJ-001",
    description := "Increase quarterly recurring revenue by ten percent.",
    success_criteria := ["Revenue grows ten percent"],
    business_value := "Higher recurring revenue",
    priority := .high }

/-- A concrete stakeholder. -/
def sampleStakeholder : Stakeholder :=
  { name := "Product owner", role := "sponsor",
    interest_level := "high", influence_level := "high" }

/-- A concrete generated BRD for counterexamples and witnesses. -/
def sampleBrd : BRDDocument :=
  { document_id := "BRD-123456", version := "1.0.0",
    title := "Dog walking platform",
    executive_summary := "A platform connecting dog walkers with owners.",
    business_context := "Dog owners need trustworthy walkers.",
    problem_statement := "Owners cannot find reliable walkers.",
    objectives := [sampleObjective],
    scope := [("in_scope", ["walker matching"]), ("out_of_scope", ["payments"])],
    stakeholders := [sampleStakeholder],
    success_metrics := ["Monthly active walkers"] }

/-- A concrete user story. -/
def sampleStory : UserStory :=
  { story_id := "US-001", story := "As an owner I want to book a walk",
    acceptance_criteria := ["Booking completes"], priority := .high,
    story_points := 3 }

/-- A concrete technical requirement. -/
def sampleTechReq : TechnicalRequirement :=
  { requirement_id := "TR-001", category := "architecture",
    description := "Service must expose a REST API." }

/-- A concrete generated PRD. -/
def samplePrd : PRDDocument :=
  { document_id := "PRD-654321", version := "1.0.0",
    related_brd_id := some "BRD-123456",
    product_name := "WalkMate",
    product_vision := "The easiest way to book a trusted dog walker.",
    target_audience := ["dog owners"],
    value_proposition := "Book a vetted walker in under a minute.",
    user_stories := [sampleStory],
    technical_requirements := [sampleTechReq],
    technology_stack := ["python"],
    acceptance_criteria := ["All stories accepted"],
    metrics_and_kpis := ["Bookings per week"] }

/-- A concrete per-call cost record. -/
def sampleCost : CostMetadata :=
  { provider := "openai", model_name := "gpt-4-turbo-preview",
    input_tokens := 1000, output_tokens := 2000,
    cost_per_1k_input := 1, cost_per_1k_output := 3,
    total_cost := 7, generation_time_ms := 1200 }

/-- An environment whose BRD generation succeeds but whose validation
returns FAILED. -/
def failBrdEnv : GenEnv :=
  { genBrd := .ok (sampleBrd, sampleCost), genPrd := .ok (samplePrd, sampleCost),
    validateBrd := fun _ => .failed, validatePrd := fun _ => .passed }

/-- A request as it reaches `generate` (already pydantic-validated). -/
def sampleBrdRequest : GenerationRequest :=
  { user_idea := "I want to build a mobile app for dog walkers that manages clients.",
    document_type := .brd, complexity := .moderate, max_cost := 2,
    include_examples := true, language := "en" }

/-- C5 counterexample: when validation of the generated BRD returns FAILED,
`generate` does NOT return a response — the `DocumentValidationError`
propagates to the caller (after the local response object is marked failed
and discarded), and no repository operation is performed. -/
theorem c5_counterexample :
    generate failBrdEnv sampleBrdRequest "REQ-20250101" "2025-01-01T00:00:00"
      = (.error .brdValidationFailed, []) := rfl

/-- C5 (amended): a FAILED validation aborts persistence of the failed
document and the `DocumentValidationError` is re-raised to the caller —
the generation output is not returned. For `document_type = BRD` nothing is
persisted at all; for BOTH with the PRD validation failing, the BRD (already
validated) was persisted but the failed PRD was not, and the exception still
propagates. -/
theorem c5_amended_validation_failure_propagates :
    (∀ (env : GenEnv) (request : GenerationRequest) (rid now : String)
       (br : BRDDocument) (bc : CostMetadata),
       env.genBrd = .ok (br, bc) → env.validateBrd br = .failed →
       request.document_type = .brd →
       generate env request rid now = (.error .brdValidationFailed, [])) ∧
    (∀ (env : GenEnv) (request : GenerationRequest) (rid now : String)
       (br : BRDDocument) (bc : CostMetadata) (pr : PRDDocument) (pc : CostMetadata),
       env.genBrd = .ok (br, bc) → env.genPrd = .ok (pr, pc) →
       env.validateBrd br ≠ .failed → env.validatePrd pr = .failed →
       request.document_type = .both →
       generate env request rid now
         = (.error .prdValidationFailed,
            [RepoOp.saveBrd br.document_id, RepoOp.saveValidation br.document_id])) := by
  constructor
  · intro env request rid now br bc hgb hvb hdoc
    simp only [generate, hdoc, hgb, except_bind_ok, validateAndStore,
      validateAndStorePrd, hvb, if_pos]
  · intro env request rid now br bc pr pc hgb hgp hvb hvp hdoc
    simp only [generate, hdoc, hgb, hgp, except_bind_ok, validateAndStore,
      validateAndStorePrd, hvp, if_pos, if_neg hvb, List.append_nil]

/-- C5 witness: the amended theorem at the concrete failing environment. -/
theorem c5_witness :
    generate failBrdEnv sampleBrdRequest "REQ-1" "t0"
      = (.error .brdValidationFailed, []) :=
  c5_amended_validation_failure_propagates.1 failBrdEnv sampleBrdRequest "REQ-1" "t0"
    sampleBrd sampleCost rfl rfl rfl

/-- A well-formed provider-payload objective whose `objective_id` (`"x9"`)
is malformed — `fix_brd_response` would coerce it to `OBJ-009`. -/
def c1Objective : JObj :=
  [("objective_id", .str "x9"),
   ("description", .str "A sufficiently long description here."),
   ("success_criteria", .arr [.str "A measurable criterion"]),
   ("business_value", .str "Lots of value"),
   ("priority", .str "high")]

/-- A parsed provider payload with one malformed objective id. -/
def c1rc : JObj :=
  [("document_id", .str "BRD-123456"),
   ("project_name", .str "Valid Project Name"),
   ("executive_summary", .str "summary"),
   ("business_context", .str "context"),
   ("scope", .obj [("in_scope", .arr []), ("out_of_scope", .arr [])]),
   ("objectives", .arr [.obj c1Objective])]

/-- C1 counterexample: `_parse_brd_response` decodes the parsed payload
DIRECTLY — it rejects the malformed `objective_id` with
`LLMInvalidResponseError` — whereas decoding the
`fix_brd_response`-repaired payload proceeds past the (coerced) objective
and fails later, on the always-missing `title` field: the pipeline's result
differs from the claimed fix-then-decode composition. -/
theorem c1_counterexample :
    openaiParseBrdResponse "120000" c1rc = .error (.fieldErr "objective_id") ∧
    openaiParseBrdResponse "120000" (fixBrdResponse rz0 c1rc)
      = .error (.fieldErr "title") ∧
    openaiParseBrdResponse "120000" c1rc
      ≠ openaiParseBrdResponse "120000" (fixBrdResponse rz0 c1rc) := by
  refine ⟨rfl, rfl, ?_⟩
  intro h
  rw [show openaiParseBrdResponse "120000" c1rc
      = .error (.fieldErr "objective_id") from rfl,
    show openaiParseBrdResponse "120000" (fixBrdResponse rz0 c1rc)
      = .error (.fieldErr "title") from rfl] at h
  exact absurd h (by decide)

/-- C1 (amended): the parsed JSON is decoded directly by
`_parse_brd_response` without passing through the repair functions (which
are never invoked anywhere in the codebase): any first objective carrying a
string `objective_id` that does not match `OBJ-` + 3 digits makes the decode
raise `LLMInvalidResponseError` at that field instead of repairing it. -/
theorem c1_amended_malformed_id_rejected_not_repaired (nowTag : String)
    (resp : JObj) (o : JObj) (rest : List JValue) (s p : String) (prio : Priority)
    (dv scv bvv : JValue)
    (hobjs : getKV resp "objectives" = some (.arr (JValue.obj o :: rest)))
    (hid : getKV o "objective_id" = some (.str s))
    (hpat : matchesIdPattern "OBJ" 3 s = false)
    (hd : getKV o "description" = some dv)
    (hsc : getKV o "success_criteria" = some scv)
    (hbv : getKV o "business_value" = some bvv)
    (hp : getKV o "priority" = some (.str p))
    (hprio : parsePriority p = some prio) :
    openaiParseBrdResponse nowTag resp = .error (.fieldErr "objective_id") := by
  have hentry : parseObjectiveEntry (JValue.obj o)
      = .error (.fieldErr "objective_id") := by
    simp only [parseObjectiveEntry, getItem, hid, hd, hsc, hbv, hp, hprio,
      except_bind_ok, mkBusinessObjective, hpat, Bool.false_eq_true, if_false,
      except_bind_error]
  simp only [openaiParseBrdResponse, hobjs, pyIterate, except_bind_ok,
    List.mapM_cons, hentry, except_bind_error]

/-- C1 witness: the amended theorem at the concrete payload `c1rc`. -/
theorem c1_witness :
    openaiParseBrdResponse "235959" c1rc = .error (.fieldErr "objective_id") :=
  c1_amended_malformed_id_rejected_not_repaired "235959" c1rc c1Objective [] "x9"
    "high" .high (.str "A sufficiently long description here.")
    (.arr [.str "A measurable criterion"]) (.str "Lots of value")
    rfl rfl (by decide) rfl rfl rfl rfl rfl

end BrdPrd
